import Mathlib

set_option maxHeartbeats 2000000
set_option maxRecDepth 16000

/-!
Verification of the Vietnamese text-normalization pipeline in
`src/chatterbox/models/tokenizers/vietnamese.py`.

Strings are embedded as `List Char` (Unicode scalar values, as in the Python
`str` type). The Python runtime's character-classification and case-mapping
primitives (`str.isalpha`, `str.isspace`, `str.islower`, `str.upper`,
`re`'s `\w`/`\d` classes and `re.IGNORECASE` literal matching) are embedded
as explicit tables extracted from the Unicode 14.0 character database used
by the CPython 3.11 runtime.
-/

namespace Chatterbox

/-- Codepoints of the characters for which Python's `str.isspace` is true;
this is also the whitespace set used by `str.split()` and `str.strip()`. -/
def wsCodes : List Nat := [9, 10, 11, 12, 13, 28, 29, 30, 31, 32, 133, 160, 5760, 8192, 8193, 8194, 8195, 8196, 8197, 8198, 8199, 8200, 8201, 8202, 8232, 8233, 8239, 8287, 12288]

/-- Python `str.isspace` on a single character. -/
def pyIsSpace (c : Char) : Bool := wsCodes.contains c.toNat

/-- Membership of a codepoint in a list of inclusive codepoint ranges. -/
def inRanges (rs : List (Nat × Nat)) (c : Char) : Bool :=
  rs.any (fun r => r.1 ≤ c.toNat && c.toNat ≤ r.2)

def letterRanges : List (Nat × Nat) := [
  (65, 90), (97, 122), (170, 170), (181, 181), (186, 186), (192, 214),
  (216, 246), (248, 705), (710, 721), (736, 740), (748, 748), (750, 750),
  (880, 884), (886, 887), (890, 893), (895, 895), (902, 902), (904, 906),
  (908, 908), (910, 929), (931, 1013), (1015, 1153), (1162, 1327), (1329, 1366),
  (1369, 1369), (1376, 1416), (1488, 1514), (1519, 1522), (1568, 1610), (1646, 1647),
  (1649, 1747), (1749, 1749), (1765, 1766), (1774, 1775), (1786, 1788), (1791, 1791),
  (1808, 1808), (1810, 1839), (1869, 1957), (1969, 1969), (1994, 2026), (2036, 2037),
  (2042, 2042), (2048, 2069), (2074, 2074), (2084, 2084), (2088, 2088), (2112, 2136),
  (2144, 2154), (2160, 2183), (2185, 2190), (2208, 2249), (2308, 2361), (2365, 2365),
  (2384, 2384), (2392, 2401), (2417, 2432), (2437, 2444), (2447, 2448), (2451, 2472),
  (2474, 2480), (2482, 2482), (2486, 2489), (2493, 2493), (2510, 2510), (2524, 2525),
  (2527, 2529), (2544, 2545), (2556, 2556), (2565, 2570), (2575, 2576), (2579, 2600),
  (2602, 2608), (2610, 2611), (2613, 2614), (2616, 2617), (2649, 2652), (2654, 2654),
  (2674, 2676), (2693, 2701), (2703, 2705), (2707, 2728), (2730, 2736), (2738, 2739),
  (2741, 2745), (2749, 2749), (2768, 2768), (2784, 2785), (2809, 2809), (2821, 2828),
  (2831, 2832), (2835, 2856), (2858, 2864), (2866, 2867), (2869, 2873), (2877, 2877),
  (2908, 2909), (2911, 2913), (2929, 2929), (2947, 2947), (2949, 2954), (2958, 2960),
  (2962, 2965), (2969, 2970), (2972, 2972), (2974, 2975), (2979, 2980), (2984, 2986),
  (2990, 3001), (3024, 3024), (3077, 3084), (3086, 3088), (3090, 3112), (3114, 3129),
  (3133, 3133), (3160, 3162), (3165, 3165), (3168, 3169), (3200, 3200), (3205, 3212),
  (3214, 3216), (3218, 3240), (3242, 3251), (3253, 3257), (3261, 3261), (3293, 3294),
  (3296, 3297), (3313, 3314), (3332, 3340), (3342, 3344), (3346, 3386), (3389, 3389),
  (3406, 3406), (3412, 3414), (3423, 3425), (3450, 3455), (3461, 3478), (3482, 3505),
  (3507, 3515), (3517, 3517), (3520, 3526), (3585, 3632), (3634, 3635), (3648, 3654),
  (3713, 3714), (3716, 3716), (3718, 3722), (3724, 3747), (3749, 3749), (3751, 3760),
  (3762, 3763), (3773, 3773), (3776, 3780), (3782, 3782), (3804, 3807), (3840, 3840),
  (3904, 3911), (3913, 3948), (3976, 3980), (4096, 4138), (4159, 4159), (4176, 4181),
  (4186, 4189), (4193, 4193), (4197, 4198), (4206, 4208), (4213, 4225), (4238, 4238),
  (4256, 4293), (4295, 4295), (4301, 4301), (4304, 4346), (4348, 4680), (4682, 4685),
  (4688, 4694), (4696, 4696), (4698, 4701), (4704, 4744), (4746, 4749), (4752, 4784),
  (4786, 4789), (4792, 4798), (4800, 4800), (4802, 4805), (4808, 4822), (4824, 4880),
  (4882, 4885), (4888, 4954), (4992, 5007), (5024, 5109), (5112, 5117), (5121, 5740),
  (5743, 5759), (5761, 5786), (5792, 5866), (5873, 5880), (5888, 5905), (5919, 5937),
  (5952, 5969), (5984, 5996), (5998, 6000), (6016, 6067), (6103, 6103), (6108, 6108),
  (6176, 6264), (6272, 6276), (6279, 6312), (6314, 6314), (6320, 6389), (6400, 6430),
  (6480, 6509), (6512, 6516), (6528, 6571), (6576, 6601), (6656, 6678), (6688, 6740),
  (6823, 6823), (6917, 6963), (6981, 6988), (7043, 7072), (7086, 7087), (7098, 7141),
  (7168, 7203), (7245, 7247), (7258, 7293), (7296, 7304), (7312, 7354), (7357, 7359),
  (7401, 7404), (7406, 7411), (7413, 7414), (7418, 7418), (7424, 7615), (7680, 7957),
  (7960, 7965), (7968, 8005), (8008, 8013), (8016, 8023), (8025, 8025), (8027, 8027),
  (8029, 8029), (8031, 8061), (8064, 8116), (8118, 8124), (8126, 8126), (8130, 8132),
  (8134, 8140), (8144, 8147), (8150, 8155), (8160, 8172), (8178, 8180), (8182, 8188),
  (8305, 8305), (8319, 8319), (8336, 8348), (8450, 8450), (8455, 8455), (8458, 8467),
  (8469, 8469), (8473, 8477), (8484, 8484), (8486, 8486), (8488, 8488), (8490, 8493),
  (8495, 8505), (8508, 8511), (8517, 8521), (8526, 8526), (8579, 8580), (11264, 11492),
  (11499, 11502), (11506, 11507), (11520, 11557), (11559, 11559), (11565, 11565), (11568, 11623),
  (11631, 11631), (11648, 11670), (11680, 11686), (11688, 11694), (11696, 11702), (11704, 11710),
  (11712, 11718), (11720, 11726), (11728, 11734), (11736, 11742), (11823, 11823), (12293, 12294),
  (12337, 12341), (12347, 12348), (12353, 12438), (12445, 12447), (12449, 12538), (12540, 12543),
  (12549, 12591), (12593, 12686), (12704, 12735), (12784, 12799), (13312, 19903), (19968, 42124),
  (42192, 42237), (42240, 42508), (42512, 42527), (42538, 42539), (42560, 42606), (42623, 42653),
  (42656, 42725), (42775, 42783), (42786, 42888), (42891, 42954), (42960, 42961), (42963, 42963),
  (42965, 42969), (42994, 43009), (43011, 43013), (43015, 43018), (43020, 43042), (43072, 43123),
  (43138, 43187), (43250, 43255), (43259, 43259), (43261, 43262), (43274, 43301), (43312, 43334),
  (43360, 43388), (43396, 43442), (43471, 43471), (43488, 43492), (43494, 43503), (43514, 43518),
  (43520, 43560), (43584, 43586), (43588, 43595), (43616, 43638), (43642, 43642), (43646, 43695),
  (43697, 43697), (43701, 43702), (43705, 43709), (43712, 43712), (43714, 43714), (43739, 43741),
  (43744, 43754), (43762, 43764), (43777, 43782), (43785, 43790), (43793, 43798), (43808, 43814),
  (43816, 43822), (43824, 43866), (43868, 43881), (43888, 44002), (44032, 55203), (55216, 55238),
  (55243, 55291), (63744, 64109), (64112, 64217), (64256, 64262), (64275, 64279), (64285, 64285),
  (64287, 64296), (64298, 64310), (64312, 64316), (64318, 64318), (64320, 64321), (64323, 64324),
  (64326, 64433), (64467, 64829), (64848, 64911), (64914, 64967), (65008, 65019), (65136, 65140),
  (65142, 65276), (65313, 65338), (65345, 65370), (65382, 65470), (65474, 65479), (65482, 65487),
  (65490, 65495), (65498, 65500), (65536, 65547), (65549, 65574), (65576, 65594), (65596, 65597),
  (65599, 65613), (65616, 65629), (65664, 65786), (66176, 66204), (66208, 66256), (66304, 66335),
  (66349, 66368), (66370, 66377), (66384, 66421), (66432, 66461), (66464, 66499), (66504, 66511),
  (66560, 66717), (66736, 66771), (66776, 66811), (66816, 66855), (66864, 66915), (66928, 66938),
  (66940, 66954), (66956, 66962), (66964, 66965), (66967, 66977), (66979, 66993), (66995, 67001),
  (67003, 67004), (67072, 67382), (67392, 67413), (67424, 67431), (67456, 67461), (67463, 67504),
  (67506, 67514), (67584, 67589), (67592, 67592), (67594, 67637), (67639, 67640), (67644, 67644),
  (67647, 67669), (67680, 67702), (67712, 67742), (67808, 67826), (67828, 67829), (67840, 67861),
  (67872, 67897), (67968, 68023), (68030, 68031), (68096, 68096), (68112, 68115), (68117, 68119),
  (68121, 68149), (68192, 68220), (68224, 68252), (68288, 68295), (68297, 68324), (68352, 68405),
  (68416, 68437), (68448, 68466), (68480, 68497), (68608, 68680), (68736, 68786), (68800, 68850),
  (68864, 68899), (69248, 69289), (69296, 69297), (69376, 69404), (69415, 69415), (69424, 69445),
  (69488, 69505), (69552, 69572), (69600, 69622), (69635, 69687), (69745, 69746), (69749, 69749),
  (69763, 69807), (69840, 69864), (69891, 69926), (69956, 69956), (69959, 69959), (69968, 70002),
  (70006, 70006), (70019, 70066), (70081, 70084), (70106, 70106), (70108, 70108), (70144, 70161),
  (70163, 70187), (70272, 70278), (70280, 70280), (70282, 70285), (70287, 70301), (70303, 70312),
  (70320, 70366), (70405, 70412), (70415, 70416), (70419, 70440), (70442, 70448), (70450, 70451),
  (70453, 70457), (70461, 70461), (70480, 70480), (70493, 70497), (70656, 70708), (70727, 70730),
  (70751, 70753), (70784, 70831), (70852, 70853), (70855, 70855), (71040, 71086), (71128, 71131),
  (71168, 71215), (71236, 71236), (71296, 71338), (71352, 71352), (71424, 71450), (71488, 71494),
  (71680, 71723), (71840, 71903), (71935, 71942), (71945, 71945), (71948, 71955), (71957, 71958),
  (71960, 71983), (71999, 71999), (72001, 72001), (72096, 72103), (72106, 72144), (72161, 72161),
  (72163, 72163), (72192, 72192), (72203, 72242), (72250, 72250), (72272, 72272), (72284, 72329),
  (72349, 72349), (72368, 72440), (72704, 72712), (72714, 72750), (72768, 72768), (72818, 72847),
  (72960, 72966), (72968, 72969), (72971, 73008), (73030, 73030), (73056, 73061), (73063, 73064),
  (73066, 73097), (73112, 73112), (73440, 73458), (73648, 73648), (73728, 74649), (74880, 75075),
  (77712, 77808), (77824, 78894), (82944, 83526), (92160, 92728), (92736, 92766), (92784, 92862),
  (92880, 92909), (92928, 92975), (92992, 92995), (93027, 93047), (93053, 93071), (93760, 93823),
  (93952, 94026), (94032, 94032), (94099, 94111), (94176, 94177), (94179, 94179), (94208, 100343),
  (100352, 101589), (101632, 101640), (110576, 110579), (110581, 110587), (110589, 110590), (110592, 110882),
  (110928, 110930), (110948, 110951), (110960, 111355), (113664, 113770), (113776, 113788), (113792, 113800),
  (113808, 113817), (119808, 119892), (119894, 119964), (119966, 119967), (119970, 119970), (119973, 119974),
  (119977, 119980), (119982, 119993), (119995, 119995), (119997, 120003), (120005, 120069), (120071, 120074),
  (120077, 120084), (120086, 120092), (120094, 120121), (120123, 120126), (120128, 120132), (120134, 120134),
  (120138, 120144), (120146, 120485), (120488, 120512), (120514, 120538), (120540, 120570), (120572, 120596),
  (120598, 120628), (120630, 120654), (120656, 120686), (120688, 120712), (120714, 120744), (120746, 120770),
  (120772, 120779), (122624, 122654), (123136, 123180), (123191, 123197), (123214, 123214), (123536, 123565),
  (123584, 123627), (124896, 124902), (124904, 124907), (124909, 124910), (124912, 124926), (124928, 125124),
  (125184, 125251), (125259, 125259), (126464, 126467), (126469, 126495), (126497, 126498), (126500, 126500),
  (126503, 126503), (126505, 126514), (126516, 126519), (126521, 126521), (126523, 126523), (126530, 126530),
  (126535, 126535), (126537, 126537), (126539, 126539), (126541, 126543), (126545, 126546), (126548, 126548),
  (126551, 126551), (126553, 126553), (126555, 126555), (126557, 126557), (126559, 126559), (126561, 126562),
  (126564, 126564), (126567, 126570), (126572, 126578), (126580, 126583), (126585, 126588), (126590, 126590),
  (126592, 126601), (126603, 126619), (126625, 126627), (126629, 126633), (126635, 126651), (131072, 173791),
  (173824, 177976), (177984, 178205), (178208, 183969), (183984, 191456), (194560, 195101), (196608, 201546)]

def lowerRanges : List (Nat × Nat) := [
  (97, 122), (170, 170), (181, 181), (186, 186), (223, 246), (248, 255),
  (257, 257), (259, 259), (261, 261), (263, 263), (265, 265), (267, 267),
  (269, 269), (271, 271), (273, 273), (275, 275), (277, 277), (279, 279),
  (281, 281), (283, 283), (285, 285), (287, 287), (289, 289), (291, 291),
  (293, 293), (295, 295), (297, 297), (299, 299), (301, 301), (303, 303),
  (305, 305), (307, 307), (309, 309), (311, 312), (314, 314), (316, 316),
  (318, 318), (320, 320), (322, 322), (324, 324), (326, 326), (328, 329),
  (331, 331), (333, 333), (335, 335), (337, 337), (339, 339), (341, 341),
  (343, 343), (345, 345), (347, 347), (349, 349), (351, 351), (353, 353),
  (355, 355), (357, 357), (359, 359), (361, 361), (363, 363), (365, 365),
  (367, 367), (369, 369), (371, 371), (373, 373), (375, 375), (378, 378),
  (380, 380), (382, 384), (387, 387), (389, 389), (392, 392), (396, 397),
  (402, 402), (405, 405), (409, 411), (414, 414), (417, 417), (419, 419),
  (421, 421), (424, 424), (426, 427), (429, 429), (432, 432), (436, 436),
  (438, 438), (441, 442), (445, 447), (454, 454), (457, 457), (460, 460),
  (462, 462), (464, 464), (466, 466), (468, 468), (470, 470), (472, 472),
  (474, 474), (476, 477), (479, 479), (481, 481), (483, 483), (485, 485),
  (487, 487), (489, 489), (491, 491), (493, 493), (495, 496), (499, 499),
  (501, 501), (505, 505), (507, 507), (509, 509), (511, 511), (513, 513),
  (515, 515), (517, 517), (519, 519), (521, 521), (523, 523), (525, 525),
  (527, 527), (529, 529), (531, 531), (533, 533), (535, 535), (537, 537),
  (539, 539), (541, 541), (543, 543), (545, 545), (547, 547), (549, 549),
  (551, 551), (553, 553), (555, 555), (557, 557), (559, 559), (561, 561),
  (563, 569), (572, 572), (575, 576), (578, 578), (583, 583), (585, 585),
  (587, 587), (589, 589), (591, 659), (661, 696), (704, 705), (736, 740),
  (837, 837), (881, 881), (883, 883), (887, 887), (890, 893), (912, 912),
  (940, 974), (976, 977), (981, 983), (985, 985), (987, 987), (989, 989),
  (991, 991), (993, 993), (995, 995), (997, 997), (999, 999), (1001, 1001),
  (1003, 1003), (1005, 1005), (1007, 1011), (1013, 1013), (1016, 1016), (1019, 1020),
  (1072, 1119), (1121, 1121), (1123, 1123), (1125, 1125), (1127, 1127), (1129, 1129),
  (1131, 1131), (1133, 1133), (1135, 1135), (1137, 1137), (1139, 1139), (1141, 1141),
  (1143, 1143), (1145, 1145), (1147, 1147), (1149, 1149), (1151, 1151), (1153, 1153),
  (1163, 1163), (1165, 1165), (1167, 1167), (1169, 1169), (1171, 1171), (1173, 1173),
  (1175, 1175), (1177, 1177), (1179, 1179), (1181, 1181), (1183, 1183), (1185, 1185),
  (1187, 1187), (1189, 1189), (1191, 1191), (1193, 1193), (1195, 1195), (1197, 1197),
  (1199, 1199), (1201, 1201), (1203, 1203), (1205, 1205), (1207, 1207), (1209, 1209),
  (1211, 1211), (1213, 1213), (1215, 1215), (1218, 1218), (1220, 1220), (1222, 1222),
  (1224, 1224), (1226, 1226), (1228, 1228), (1230, 1231), (1233, 1233), (1235, 1235),
  (1237, 1237), (1239, 1239), (1241, 1241), (1243, 1243), (1245, 1245), (1247, 1247),
  (1249, 1249), (1251, 1251), (1253, 1253), (1255, 1255), (1257, 1257), (1259, 1259),
  (1261, 1261), (1263, 1263), (1265, 1265), (1267, 1267), (1269, 1269), (1271, 1271),
  (1273, 1273), (1275, 1275), (1277, 1277), (1279, 1279), (1281, 1281), (1283, 1283),
  (1285, 1285), (1287, 1287), (1289, 1289), (1291, 1291), (1293, 1293), (1295, 1295),
  (1297, 1297), (1299, 1299), (1301, 1301), (1303, 1303), (1305, 1305), (1307, 1307),
  (1309, 1309), (1311, 1311), (1313, 1313), (1315, 1315), (1317, 1317), (1319, 1319),
  (1321, 1321), (1323, 1323), (1325, 1325), (1327, 1327), (1376, 1416), (4304, 4346),
  (4349, 4351), (5112, 5117), (7296, 7304), (7424, 7615), (7681, 7681), (7683, 7683),
  (7685, 7685), (7687, 7687), (7689, 7689), (7691, 7691), (7693, 7693), (7695, 7695),
  (7697, 7697), (7699, 7699), (7701, 7701), (7703, 7703), (7705, 7705), (7707, 7707),
  (7709, 7709), (7711, 7711), (7713, 7713), (7715, 7715), (7717, 7717), (7719, 7719),
  (7721, 7721), (7723, 7723), (7725, 7725), (7727, 7727), (7729, 7729), (7731, 7731),
  (7733, 7733), (7735, 7735), (7737, 7737), (7739, 7739), (7741, 7741), (7743, 7743),
  (7745, 7745), (7747, 7747), (7749, 7749), (7751, 7751), (7753, 7753), (7755, 7755),
  (7757, 7757), (7759, 7759), (7761, 7761), (7763, 7763), (7765, 7765), (7767, 7767),
  (7769, 7769), (7771, 7771), (7773, 7773), (7775, 7775), (7777, 7777), (7779, 7779),
  (7781, 7781), (7783, 7783), (7785, 7785), (7787, 7787), (7789, 7789), (7791, 7791),
  (7793, 7793), (7795, 7795), (7797, 7797), (7799, 7799), (7801, 7801), (7803, 7803),
  (7805, 7805), (7807, 7807), (7809, 7809), (7811, 7811), (7813, 7813), (7815, 7815),
  (7817, 7817), (7819, 7819), (7821, 7821), (7823, 7823), (7825, 7825), (7827, 7827),
  (7829, 7837), (7839, 7839), (7841, 7841), (7843, 7843), (7845, 7845), (7847, 7847),
  (7849, 7849), (7851, 7851), (7853, 7853), (7855, 7855), (7857, 7857), (7859, 7859),
  (7861, 7861), (7863, 7863), (7865, 7865), (7867, 7867), (7869, 7869), (7871, 7871),
  (7873, 7873), (7875, 7875), (7877, 7877), (7879, 7879), (7881, 7881), (7883, 7883),
  (7885, 7885), (7887, 7887), (7889, 7889), (7891, 7891), (7893, 7893), (7895, 7895),
  (7897, 7897), (7899, 7899), (7901, 7901), (7903, 7903), (7905, 7905), (7907, 7907),
  (7909, 7909), (7911, 7911), (7913, 7913), (7915, 7915), (7917, 7917), (7919, 7919),
  (7921, 7921), (7923, 7923), (7925, 7925), (7927, 7927), (7929, 7929), (7931, 7931),
  (7933, 7933), (7935, 7943), (7952, 7957), (7968, 7975), (7984, 7991), (8000, 8005),
  (8016, 8023), (8032, 8039), (8048, 8061), (8064, 8071), (8080, 8087), (8096, 8103),
  (8112, 8116), (8118, 8119), (8126, 8126), (8130, 8132), (8134, 8135), (8144, 8147),
  (8150, 8151), (8160, 8167), (8178, 8180), (8182, 8183), (8305, 8305), (8319, 8319),
  (8336, 8348), (8458, 8458), (8462, 8463), (8467, 8467), (8495, 8495), (8500, 8500),
  (8505, 8505), (8508, 8509), (8518, 8521), (8526, 8526), (8560, 8575), (8580, 8580),
  (9424, 9449), (11312, 11359), (11361, 11361), (11365, 11366), (11368, 11368), (11370, 11370),
  (11372, 11372), (11377, 11377), (11379, 11380), (11382, 11389), (11393, 11393), (11395, 11395),
  (11397, 11397), (11399, 11399), (11401, 11401), (11403, 11403), (11405, 11405), (11407, 11407),
  (11409, 11409), (11411, 11411), (11413, 11413), (11415, 11415), (11417, 11417), (11419, 11419),
  (11421, 11421), (11423, 11423), (11425, 11425), (11427, 11427), (11429, 11429), (11431, 11431),
  (11433, 11433), (11435, 11435), (11437, 11437), (11439, 11439), (11441, 11441), (11443, 11443),
  (11445, 11445), (11447, 11447), (11449, 11449), (11451, 11451), (11453, 11453), (11455, 11455),
  (11457, 11457), (11459, 11459), (11461, 11461), (11463, 11463), (11465, 11465), (11467, 11467),
  (11469, 11469), (11471, 11471), (11473, 11473), (11475, 11475), (11477, 11477), (11479, 11479),
  (11481, 11481), (11483, 11483), (11485, 11485), (11487, 11487), (11489, 11489), (11491, 11492),
  (11500, 11500), (11502, 11502), (11507, 11507), (11520, 11557), (11559, 11559), (11565, 11565),
  (42561, 42561), (42563, 42563), (42565, 42565), (42567, 42567), (42569, 42569), (42571, 42571),
  (42573, 42573), (42575, 42575), (42577, 42577), (42579, 42579), (42581, 42581), (42583, 42583),
  (42585, 42585), (42587, 42587), (42589, 42589), (42591, 42591), (42593, 42593), (42595, 42595),
  (42597, 42597), (42599, 42599), (42601, 42601), (42603, 42603), (42605, 42605), (42625, 42625),
  (42627, 42627), (42629, 42629), (42631, 42631), (42633, 42633), (42635, 42635), (42637, 42637),
  (42639, 42639), (42641, 42641), (42643, 42643), (42645, 42645), (42647, 42647), (42649, 42649),
  (42651, 42653), (42787, 42787), (42789, 42789), (42791, 42791), (42793, 42793), (42795, 42795),
  (42797, 42797), (42799, 42801), (42803, 42803), (42805, 42805), (42807, 42807), (42809, 42809),
  (42811, 42811), (42813, 42813), (42815, 42815), (42817, 42817), (42819, 42819), (42821, 42821),
  (42823, 42823), (42825, 42825), (42827, 42827), (42829, 42829), (42831, 42831), (42833, 42833),
  (42835, 42835), (42837, 42837), (42839, 42839), (42841, 42841), (42843, 42843), (42845, 42845),
  (42847, 42847), (42849, 42849), (42851, 42851), (42853, 42853), (42855, 42855), (42857, 42857),
  (42859, 42859), (42861, 42861), (42863, 42872), (42874, 42874), (42876, 42876), (42879, 42879),
  (42881, 42881), (42883, 42883), (42885, 42885), (42887, 42887), (42892, 42892), (42894, 42894),
  (42897, 42897), (42899, 42901), (42903, 42903), (42905, 42905), (42907, 42907), (42909, 42909),
  (42911, 42911), (42913, 42913), (42915, 42915), (42917, 42917), (42919, 42919), (42921, 42921),
  (42927, 42927), (42933, 42933), (42935, 42935), (42937, 42937), (42939, 42939), (42941, 42941),
  (42943, 42943), (42945, 42945), (42947, 42947), (42952, 42952), (42954, 42954), (42961, 42961),
  (42963, 42963), (42965, 42965), (42967, 42967), (42969, 42969), (42998, 42998), (43000, 43002),
  (43824, 43866), (43868, 43880), (43888, 43967), (64256, 64262), (64275, 64279), (65345, 65370),
  (66600, 66639), (66776, 66811), (66967, 66977), (66979, 66993), (66995, 67001), (67003, 67004),
  (67456, 67456), (67459, 67461), (67463, 67504), (67506, 67514), (68800, 68850), (71872, 71903),
  (93792, 93823), (119834, 119859), (119886, 119892), (119894, 119911), (119938, 119963), (119990, 119993),
  (119995, 119995), (119997, 120003), (120005, 120015), (120042, 120067), (120094, 120119), (120146, 120171),
  (120198, 120223), (120250, 120275), (120302, 120327), (120354, 120379), (120406, 120431), (120458, 120485),
  (120514, 120538), (120540, 120545), (120572, 120596), (120598, 120603), (120630, 120654), (120656, 120661),
  (120688, 120712), (120714, 120719), (120746, 120770), (120772, 120777), (120779, 120779), (122624, 122633),
  (122635, 122654), (125218, 125251)]

def upperTable : List (Nat × List Nat) := [
  (97, [65]), (98, [66]), (99, [67]), (100, [68]), (101, [69]),
  (102, [70]), (103, [71]), (104, [72]), (105, [73]), (106, [74]),
  (107, [75]), (108, [76]), (109, [77]), (110, [78]), (111, [79]),
  (112, [80]), (113, [81]), (114, [82]), (115, [83]), (116, [84]),
  (117, [85]), (118, [86]), (119, [87]), (120, [88]), (121, [89]),
  (122, [90]), (181, [924]), (223, [83, 83]), (224, [192]), (225, [193]),
  (226, [194]), (227, [195]), (228, [196]), (229, [197]), (230, [198]),
  (231, [199]), (232, [200]), (233, [201]), (234, [202]), (235, [203]),
  (236, [204]), (237, [205]), (238, [206]), (239, [207]), (240, [208]),
  (241, [209]), (242, [210]), (243, [211]), (244, [212]), (245, [213]),
  (246, [214]), (248, [216]), (249, [217]), (250, [218]), (251, [219]),
  (252, [220]), (253, [221]), (254, [222]), (255, [376]), (257, [256]),
  (259, [258]), (261, [260]), (263, [262]), (265, [264]), (267, [266]),
  (269, [268]), (271, [270]), (273, [272]), (275, [274]), (277, [276]),
  (279, [278]), (281, [280]), (283, [282]), (285, [284]), (287, [286]),
  (289, [288]), (291, [290]), (293, [292]), (295, [294]), (297, [296]),
  (299, [298]), (301, [300]), (303, [302]), (305, [73]), (307, [306]),
  (309, [308]), (311, [310]), (314, [313]), (316, [315]), (318, [317]),
  (320, [319]), (322, [321]), (324, [323]), (326, [325]), (328, [327]),
  (329, [700, 78]), (331, [330]), (333, [332]), (335, [334]), (337, [336]),
  (339, [338]), (341, [340]), (343, [342]), (345, [344]), (347, [346]),
  (349, [348]), (351, [350]), (353, [352]), (355, [354]), (357, [356]),
  (359, [358]), (361, [360]), (363, [362]), (365, [364]), (367, [366]),
  (369, [368]), (371, [370]), (373, [372]), (375, [374]), (378, [377]),
  (380, [379]), (382, [381]), (383, [83]), (384, [579]), (387, [386]),
  (389, [388]), (392, [391]), (396, [395]), (402, [401]), (405, [502]),
  (409, [408]), (410, [573]), (414, [544]), (417, [416]), (419, [418]),
  (421, [420]), (424, [423]), (429, [428]), (432, [431]), (436, [435]),
  (438, [437]), (441, [440]), (445, [444]), (447, [503]), (453, [452]),
  (454, [452]), (456, [455]), (457, [455]), (459, [458]), (460, [458]),
  (462, [461]), (464, [463]), (466, [465]), (468, [467]), (470, [469]),
  (472, [471]), (474, [473]), (476, [475]), (477, [398]), (479, [478]),
  (481, [480]), (483, [482]), (485, [484]), (487, [486]), (489, [488]),
  (491, [490]), (493, [492]), (495, [494]), (496, [74, 780]), (498, [497]),
  (499, [497]), (501, [500]), (505, [504]), (507, [506]), (509, [508]),
  (511, [510]), (513, [512]), (515, [514]), (517, [516]), (519, [518]),
  (521, [520]), (523, [522]), (525, [524]), (527, [526]), (529, [528]),
  (531, [530]), (533, [532]), (535, [534]), (537, [536]), (539, [538]),
  (541, [540]), (543, [542]), (547, [546]), (549, [548]), (551, [550]),
  (553, [552]), (555, [554]), (557, [556]), (559, [558]), (561, [560]),
  (563, [562]), (572, [571]), (575, [11390]), (576, [11391]), (578, [577]),
  (583, [582]), (585, [584]), (587, [586]), (589, [588]), (591, [590]),
  (592, [11375]), (593, [11373]), (594, [11376]), (595, [385]), (596, [390]),
  (598, [393]), (599, [394]), (601, [399]), (603, [400]), (604, [42923]),
  (608, [403]), (609, [42924]), (611, [404]), (613, [42893]), (614, [42922]),
  (616, [407]), (617, [406]), (618, [42926]), (619, [11362]), (620, [42925]),
  (623, [412]), (625, [11374]), (626, [413]), (629, [415]), (637, [11364]),
  (640, [422]), (642, [42949]), (643, [425]), (647, [42929]), (648, [430]),
  (649, [580]), (650, [433]), (651, [434]), (652, [581]), (658, [439]),
  (669, [42930]), (670, [42928]), (837, [921]), (881, [880]), (883, [882]),
  (887, [886]), (891, [1021]), (892, [1022]), (893, [1023]), (912, [921, 776, 769]),
  (940, [902]), (941, [904]), (942, [905]), (943, [906]), (944, [933, 776, 769]),
  (945, [913]), (946, [914]), (947, [915]), (948, [916]), (949, [917]),
  (950, [918]), (951, [919]), (952, [920]), (953, [921]), (954, [922]),
  (955, [923]), (956, [924]), (957, [925]), (958, [926]), (959, [927]),
  (960, [928]), (961, [929]), (962, [931]), (963, [931]), (964, [932]),
  (965, [933]), (966, [934]), (967, [935]), (968, [936]), (969, [937]),
  (970, [938]), (971, [939]), (972, [908]), (973, [910]), (974, [911]),
  (976, [914]), (977, [920]), (981, [934]), (982, [928]), (983, [975]),
  (985, [984]), (987, [986]), (989, [988]), (991, [990]), (993, [992]),
  (995, [994]), (997, [996]), (999, [998]), (1001, [1000]), (1003, [1002]),
  (1005, [1004]), (1007, [1006]), (1008, [922]), (1009, [929]), (1010, [1017]),
  (1011, [895]), (1013, [917]), (1016, [1015]), (1019, [1018]), (1072, [1040]),
  (1073, [1041]), (1074, [1042]), (1075, [1043]), (1076, [1044]), (1077, [1045]),
  (1078, [1046]), (1079, [1047]), (1080, [1048]), (1081, [1049]), (1082, [1050]),
  (1083, [1051]), (1084, [1052]), (1085, [1053]), (1086, [1054]), (1087, [1055]),
  (1088, [1056]), (1089, [1057]), (1090, [1058]), (1091, [1059]), (1092, [1060]),
  (1093, [1061]), (1094, [1062]), (1095, [1063]), (1096, [1064]), (1097, [1065]),
  (1098, [1066]), (1099, [1067]), (1100, [1068]), (1101, [1069]), (1102, [1070]),
  (1103, [1071]), (1104, [1024]), (1105, [1025]), (1106, [1026]), (1107, [1027]),
  (1108, [1028]), (1109, [1029]), (1110, [1030]), (1111, [1031]), (1112, [1032]),
  (1113, [1033]), (1114, [1034]), (1115, [1035]), (1116, [1036]), (1117, [1037]),
  (1118, [1038]), (1119, [1039]), (1121, [1120]), (1123, [1122]), (1125, [1124]),
  (1127, [1126]), (1129, [1128]), (1131, [1130]), (1133, [1132]), (1135, [1134]),
  (1137, [1136]), (1139, [1138]), (1141, [1140]), (1143, [1142]), (1145, [1144]),
  (1147, [1146]), (1149, [1148]), (1151, [1150]), (1153, [1152]), (1163, [1162]),
  (1165, [1164]), (1167, [1166]), (1169, [1168]), (1171, [1170]), (1173, [1172]),
  (1175, [1174]), (1177, [1176]), (1179, [1178]), (1181, [1180]), (1183, [1182]),
  (1185, [1184]), (1187, [1186]), (1189, [1188]), (1191, [1190]), (1193, [1192]),
  (1195, [1194]), (1197, [1196]), (1199, [1198]), (1201, [1200]), (1203, [1202]),
  (1205, [1204]), (1207, [1206]), (1209, [1208]), (1211, [1210]), (1213, [1212]),
  (1215, [1214]), (1218, [1217]), (1220, [1219]), (1222, [1221]), (1224, [1223]),
  (1226, [1225]), (1228, [1227]), (1230, [1229]), (1231, [1216]), (1233, [1232]),
  (1235, [1234]), (1237, [1236]), (1239, [1238]), (1241, [1240]), (1243, [1242]),
  (1245, [1244]), (1247, [1246]), (1249, [1248]), (1251, [1250]), (1253, [1252]),
  (1255, [1254]), (1257, [1256]), (1259, [1258]), (1261, [1260]), (1263, [1262]),
  (1265, [1264]), (1267, [1266]), (1269, [1268]), (1271, [1270]), (1273, [1272]),
  (1275, [1274]), (1277, [1276]), (1279, [1278]), (1281, [1280]), (1283, [1282]),
  (1285, [1284]), (1287, [1286]), (1289, [1288]), (1291, [1290]), (1293, [1292]),
  (1295, [1294]), (1297, [1296]), (1299, [1298]), (1301, [1300]), (1303, [1302]),
  (1305, [1304]), (1307, [1306]), (1309, [1308]), (1311, [1310]), (1313, [1312]),
  (1315, [1314]), (1317, [1316]), (1319, [1318]), (1321, [1320]), (1323, [1322]),
  (1325, [1324]), (1327, [1326]), (1377, [1329]), (1378, [1330]), (1379, [1331]),
  (1380, [1332]), (1381, [1333]), (1382, [1334]), (1383, [1335]), (1384, [1336]),
  (1385, [1337]), (1386, [1338]), (1387, [1339]), (1388, [1340]), (1389, [1341]),
  (1390, [1342]), (1391, [1343]), (1392, [1344]), (1393, [1345]), (1394, [1346]),
  (1395, [1347]), (1396, [1348]), (1397, [1349]), (1398, [1350]), (1399, [1351]),
  (1400, [1352]), (1401, [1353]), (1402, [1354]), (1403, [1355]), (1404, [1356]),
  (1405, [1357]), (1406, [1358]), (1407, [1359]), (1408, [1360]), (1409, [1361]),
  (1410, [1362]), (1411, [1363]), (1412, [1364]), (1413, [1365]), (1414, [1366]),
  (1415, [1333, 1362]), (4304, [7312]), (4305, [7313]), (4306, [7314]), (4307, [7315]),
  (4308, [7316]), (4309, [7317]), (4310, [7318]), (4311, [7319]), (4312, [7320]),
  (4313, [7321]), (4314, [7322]), (4315, [7323]), (4316, [7324]), (4317, [7325]),
  (4318, [7326]), (4319, [7327]), (4320, [7328]), (4321, [7329]), (4322, [7330]),
  (4323, [7331]), (4324, [7332]), (4325, [7333]), (4326, [7334]), (4327, [7335]),
  (4328, [7336]), (4329, [7337]), (4330, [7338]), (4331, [7339]), (4332, [7340]),
  (4333, [7341]), (4334, [7342]), (4335, [7343]), (4336, [7344]), (4337, [7345]),
  (4338, [7346]), (4339, [7347]), (4340, [7348]), (4341, [7349]), (4342, [7350]),
  (4343, [7351]), (4344, [7352]), (4345, [7353]), (4346, [7354]), (4349, [7357]),
  (4350, [7358]), (4351, [7359]), (5112, [5104]), (5113, [5105]), (5114, [5106]),
  (5115, [5107]), (5116, [5108]), (5117, [5109]), (7296, [1042]), (7297, [1044]),
  (7298, [1054]), (7299, [1057]), (7300, [1058]), (7301, [1058]), (7302, [1066]),
  (7303, [1122]), (7304, [42570]), (7545, [42877]), (7549, [11363]), (7566, [42950]),
  (7681, [7680]), (7683, [7682]), (7685, [7684]), (7687, [7686]), (7689, [7688]),
  (7691, [7690]), (7693, [7692]), (7695, [7694]), (7697, [7696]), (7699, [7698]),
  (7701, [7700]), (7703, [7702]), (7705, [7704]), (7707, [7706]), (7709, [7708]),
  (7711, [7710]), (7713, [7712]), (7715, [7714]), (7717, [7716]), (7719, [7718]),
  (7721, [7720]), (7723, [7722]), (7725, [7724]), (7727, [7726]), (7729, [7728]),
  (7731, [7730]), (7733, [7732]), (7735, [7734]), (7737, [7736]), (7739, [7738]),
  (7741, [7740]), (7743, [7742]), (7745, [7744]), (7747, [7746]), (7749, [7748]),
  (7751, [7750]), (7753, [7752]), (7755, [7754]), (7757, [7756]), (7759, [7758]),
  (7761, [7760]), (7763, [7762]), (7765, [7764]), (7767, [7766]), (7769, [7768]),
  (7771, [7770]), (7773, [7772]), (7775, [7774]), (7777, [7776]), (7779, [7778]),
  (7781, [7780]), (7783, [7782]), (7785, [7784]), (7787, [7786]), (7789, [7788]),
  (7791, [7790]), (7793, [7792]), (7795, [7794]), (7797, [7796]), (7799, [7798]),
  (7801, [7800]), (7803, [7802]), (7805, [7804]), (7807, [7806]), (7809, [7808]),
  (7811, [7810]), (7813, [7812]), (7815, [7814]), (7817, [7816]), (7819, [7818]),
  (7821, [7820]), (7823, [7822]), (7825, [7824]), (7827, [7826]), (7829, [7828]),
  (7830, [72, 817]), (7831, [84, 776]), (7832, [87, 778]), (7833, [89, 778]), (7834, [65, 702]),
  (7835, [7776]), (7841, [7840]), (7843, [7842]), (7845, [7844]), (7847, [7846]),
  (7849, [7848]), (7851, [7850]), (7853, [7852]), (7855, [7854]), (7857, [7856]),
  (7859, [7858]), (7861, [7860]), (7863, [7862]), (7865, [7864]), (7867, [7866]),
  (7869, [7868]), (7871, [7870]), (7873, [7872]), (7875, [7874]), (7877, [7876]),
  (7879, [7878]), (7881, [7880]), (7883, [7882]), (7885, [7884]), (7887, [7886]),
  (7889, [7888]), (7891, [7890]), (7893, [7892]), (7895, [7894]), (7897, [7896]),
  (7899, [7898]), (7901, [7900]), (7903, [7902]), (7905, [7904]), (7907, [7906]),
  (7909, [7908]), (7911, [7910]), (7913, [7912]), (7915, [7914]), (7917, [7916]),
  (7919, [7918]), (7921, [7920]), (7923, [7922]), (7925, [7924]), (7927, [7926]),
  (7929, [7928]), (7931, [7930]), (7933, [7932]), (7935, [7934]), (7936, [7944]),
  (7937, [7945]), (7938, [7946]), (7939, [7947]), (7940, [7948]), (7941, [7949]),
  (7942, [7950]), (7943, [7951]), (7952, [7960]), (7953, [7961]), (7954, [7962]),
  (7955, [7963]), (7956, [7964]), (7957, [7965]), (7968, [7976]), (7969, [7977]),
  (7970, [7978]), (7971, [7979]), (7972, [7980]), (7973, [7981]), (7974, [7982]),
  (7975, [7983]), (7984, [7992]), (7985, [7993]), (7986, [7994]), (7987, [7995]),
  (7988, [7996]), (7989, [7997]), (7990, [7998]), (7991, [7999]), (8000, [8008]),
  (8001, [8009]), (8002, [8010]), (8003, [8011]), (8004, [8012]), (8005, [8013]),
  (8016, [933, 787]), (8017, [8025]), (8018, [933, 787, 768]), (8019, [8027]), (8020, [933, 787, 769]),
  (8021, [8029]), (8022, [933, 787, 834]), (8023, [8031]), (8032, [8040]), (8033, [8041]),
  (8034, [8042]), (8035, [8043]), (8036, [8044]), (8037, [8045]), (8038, [8046]),
  (8039, [8047]), (8048, [8122]), (8049, [8123]), (8050, [8136]), (8051, [8137]),
  (8052, [8138]), (8053, [8139]), (8054, [8154]), (8055, [8155]), (8056, [8184]),
  (8057, [8185]), (8058, [8170]), (8059, [8171]), (8060, [8186]), (8061, [8187]),
  (8064, [7944, 921]), (8065, [7945, 921]), (8066, [7946, 921]), (8067, [7947, 921]), (8068, [7948, 921]),
  (8069, [7949, 921]), (8070, [7950, 921]), (8071, [7951, 921]), (8072, [7944, 921]), (8073, [7945, 921]),
  (8074, [7946, 921]), (8075, [7947, 921]), (8076, [7948, 921]), (8077, [7949, 921]), (8078, [7950, 921]),
  (8079, [7951, 921]), (8080, [7976, 921]), (8081, [7977, 921]), (8082, [7978, 921]), (8083, [7979, 921]),
  (8084, [7980, 921]), (8085, [7981, 921]), (8086, [7982, 921]), (8087, [7983, 921]), (8088, [7976, 921]),
  (8089, [7977, 921]), (8090, [7978, 921]), (8091, [7979, 921]), (8092, [7980, 921]), (8093, [7981, 921]),
  (8094, [7982, 921]), (8095, [7983, 921]), (8096, [8040, 921]), (8097, [8041, 921]), (8098, [8042, 921]),
  (8099, [8043, 921]), (8100, [8044, 921]), (8101, [8045, 921]), (8102, [8046, 921]), (8103, [8047, 921]),
  (8104, [8040, 921]), (8105, [8041, 921]), (8106, [8042, 921]), (8107, [8043, 921]), (8108, [8044, 921]),
  (8109, [8045, 921]), (8110, [8046, 921]), (8111, [8047, 921]), (8112, [8120]), (8113, [8121]),
  (8114, [8122, 921]), (8115, [913, 921]), (8116, [902, 921]), (8118, [913, 834]), (8119, [913, 834, 921]),
  (8124, [913, 921]), (8126, [921]), (8130, [8138, 921]), (8131, [919, 921]), (8132, [905, 921]),
  (8134, [919, 834]), (8135, [919, 834, 921]), (8140, [919, 921]), (8144, [8152]), (8145, [8153]),
  (8146, [921, 776, 768]), (8147, [921, 776, 769]), (8150, [921, 834]), (8151, [921, 776, 834]), (8160, [8168]),
  (8161, [8169]), (8162, [933, 776, 768]), (8163, [933, 776, 769]), (8164, [929, 787]), (8165, [8172]),
  (8166, [933, 834]), (8167, [933, 776, 834]), (8178, [8186, 921]), (8179, [937, 921]), (8180, [911, 921]),
  (8182, [937, 834]), (8183, [937, 834, 921]), (8188, [937, 921]), (8526, [8498]), (8560, [8544]),
  (8561, [8545]), (8562, [8546]), (8563, [8547]), (8564, [8548]), (8565, [8549]),
  (8566, [8550]), (8567, [8551]), (8568, [8552]), (8569, [8553]), (8570, [8554]),
  (8571, [8555]), (8572, [8556]), (8573, [8557]), (8574, [8558]), (8575, [8559]),
  (8580, [8579]), (9424, [9398]), (9425, [9399]), (9426, [9400]), (9427, [9401]),
  (9428, [9402]), (9429, [9403]), (9430, [9404]), (9431, [9405]), (9432, [9406]),
  (9433, [9407]), (9434, [9408]), (9435, [9409]), (9436, [9410]), (9437, [9411]),
  (9438, [9412]), (9439, [9413]), (9440, [9414]), (9441, [9415]), (9442, [9416]),
  (9443, [9417]), (9444, [9418]), (9445, [9419]), (9446, [9420]), (9447, [9421]),
  (9448, [9422]), (9449, [9423]), (11312, [11264]), (11313, [11265]), (11314, [11266]),
  (11315, [11267]), (11316, [11268]), (11317, [11269]), (11318, [11270]), (11319, [11271]),
  (11320, [11272]), (11321, [11273]), (11322, [11274]), (11323, [11275]), (11324, [11276]),
  (11325, [11277]), (11326, [11278]), (11327, [11279]), (11328, [11280]), (11329, [11281]),
  (11330, [11282]), (11331, [11283]), (11332, [11284]), (11333, [11285]), (11334, [11286]),
  (11335, [11287]), (11336, [11288]), (11337, [11289]), (11338, [11290]), (11339, [11291]),
  (11340, [11292]), (11341, [11293]), (11342, [11294]), (11343, [11295]), (11344, [11296]),
  (11345, [11297]), (11346, [11298]), (11347, [11299]), (11348, [11300]), (11349, [11301]),
  (11350, [11302]), (11351, [11303]), (11352, [11304]), (11353, [11305]), (11354, [11306]),
  (11355, [11307]), (11356, [11308]), (11357, [11309]), (11358, [11310]), (11359, [11311]),
  (11361, [11360]), (11365, [570]), (11366, [574]), (11368, [11367]), (11370, [11369]),
  (11372, [11371]), (11379, [11378]), (11382, [11381]), (11393, [11392]), (11395, [11394]),
  (11397, [11396]), (11399, [11398]), (11401, [11400]), (11403, [11402]), (11405, [11404]),
  (11407, [11406]), (11409, [11408]), (11411, [11410]), (11413, [11412]), (11415, [11414]),
  (11417, [11416]), (11419, [11418]), (11421, [11420]), (11423, [11422]), (11425, [11424]),
  (11427, [11426]), (11429, [11428]), (11431, [11430]), (11433, [11432]), (11435, [11434]),
  (11437, [11436]), (11439, [11438]), (11441, [11440]), (11443, [11442]), (11445, [11444]),
  (11447, [11446]), (11449, [11448]), (11451, [11450]), (11453, [11452]), (11455, [11454]),
  (11457, [11456]), (11459, [11458]), (11461, [11460]), (11463, [11462]), (11465, [11464]),
  (11467, [11466]), (11469, [11468]), (11471, [11470]), (11473, [11472]), (11475, [11474]),
  (11477, [11476]), (11479, [11478]), (11481, [11480]), (11483, [11482]), (11485, [11484]),
  (11487, [11486]), (11489, [11488]), (11491, [11490]), (11500, [11499]), (11502, [11501]),
  (11507, [11506]), (11520, [4256]), (11521, [4257]), (11522, [4258]), (11523, [4259]),
  (11524, [4260]), (11525, [4261]), (11526, [4262]), (11527, [4263]), (11528, [4264]),
  (11529, [4265]), (11530, [4266]), (11531, [4267]), (11532, [4268]), (11533, [4269]),
  (11534, [4270]), (11535, [4271]), (11536, [4272]), (11537, [4273]), (11538, [4274]),
  (11539, [4275]), (11540, [4276]), (11541, [4277]), (11542, [4278]), (11543, [4279]),
  (11544, [4280]), (11545, [4281]), (11546, [4282]), (11547, [4283]), (11548, [4284]),
  (11549, [4285]), (11550, [4286]), (11551, [4287]), (11552, [4288]), (11553, [4289]),
  (11554, [4290]), (11555, [4291]), (11556, [4292]), (11557, [4293]), (11559, [4295]),
  (11565, [4301]), (42561, [42560]), (42563, [42562]), (42565, [42564]), (42567, [42566]),
  (42569, [42568]), (42571, [42570]), (42573, [42572]), (42575, [42574]), (42577, [42576]),
  (42579, [42578]), (42581, [42580]), (42583, [42582]), (42585, [42584]), (42587, [42586]),
  (42589, [42588]), (42591, [42590]), (42593, [42592]), (42595, [42594]), (42597, [42596]),
  (42599, [42598]), (42601, [42600]), (42603, [42602]), (42605, [42604]), (42625, [42624]),
  (42627, [42626]), (42629, [42628]), (42631, [42630]), (42633, [42632]), (42635, [42634]),
  (42637, [42636]), (42639, [42638]), (42641, [42640]), (42643, [42642]), (42645, [42644]),
  (42647, [42646]), (42649, [42648]), (42651, [42650]), (42787, [42786]), (42789, [42788]),
  (42791, [42790]), (42793, [42792]), (42795, [42794]), (42797, [42796]), (42799, [42798]),
  (42803, [42802]), (42805, [42804]), (42807, [42806]), (42809, [42808]), (42811, [42810]),
  (42813, [42812]), (42815, [42814]), (42817, [42816]), (42819, [42818]), (42821, [42820]),
  (42823, [42822]), (42825, [42824]), (42827, [42826]), (42829, [42828]), (42831, [42830]),
  (42833, [42832]), (42835, [42834]), (42837, [42836]), (42839, [42838]), (42841, [42840]),
  (42843, [42842]), (42845, [42844]), (42847, [42846]), (42849, [42848]), (42851, [42850]),
  (42853, [42852]), (42855, [42854]), (42857, [42856]), (42859, [42858]), (42861, [42860]),
  (42863, [42862]), (42874, [42873]), (42876, [42875]), (42879, [42878]), (42881, [42880]),
  (42883, [42882]), (42885, [42884]), (42887, [42886]), (42892, [42891]), (42897, [42896]),
  (42899, [42898]), (42900, [42948]), (42903, [42902]), (42905, [42904]), (42907, [42906]),
  (42909, [42908]), (42911, [42910]), (42913, [42912]), (42915, [42914]), (42917, [42916]),
  (42919, [42918]), (42921, [42920]), (42933, [42932]), (42935, [42934]), (42937, [42936]),
  (42939, [42938]), (42941, [42940]), (42943, [42942]), (42945, [42944]), (42947, [42946]),
  (42952, [42951]), (42954, [42953]), (42961, [42960]), (42967, [42966]), (42969, [42968]),
  (42998, [42997]), (43859, [42931]), (43888, [5024]), (43889, [5025]), (43890, [5026]),
  (43891, [5027]), (43892, [5028]), (43893, [5029]), (43894, [5030]), (43895, [5031]),
  (43896, [5032]), (43897, [5033]), (43898, [5034]), (43899, [5035]), (43900, [5036]),
  (43901, [5037]), (43902, [5038]), (43903, [5039]), (43904, [5040]), (43905, [5041]),
  (43906, [5042]), (43907, [5043]), (43908, [5044]), (43909, [5045]), (43910, [5046]),
  (43911, [5047]), (43912, [5048]), (43913, [5049]), (43914, [5050]), (43915, [5051]),
  (43916, [5052]), (43917, [5053]), (43918, [5054]), (43919, [5055]), (43920, [5056]),
  (43921, [5057]), (43922, [5058]), (43923, [5059]), (43924, [5060]), (43925, [5061]),
  (43926, [5062]), (43927, [5063]), (43928, [5064]), (43929, [5065]), (43930, [5066]),
  (43931, [5067]), (43932, [5068]), (43933, [5069]), (43934, [5070]), (43935, [5071]),
  (43936, [5072]), (43937, [5073]), (43938, [5074]), (43939, [5075]), (43940, [5076]),
  (43941, [5077]), (43942, [5078]), (43943, [5079]), (43944, [5080]), (43945, [5081]),
  (43946, [5082]), (43947, [5083]), (43948, [5084]), (43949, [5085]), (43950, [5086]),
  (43951, [5087]), (43952, [5088]), (43953, [5089]), (43954, [5090]), (43955, [5091]),
  (43956, [5092]), (43957, [5093]), (43958, [5094]), (43959, [5095]), (43960, [5096]),
  (43961, [5097]), (43962, [5098]), (43963, [5099]), (43964, [5100]), (43965, [5101]),
  (43966, [5102]), (43967, [5103]), (64256, [70, 70]), (64257, [70, 73]), (64258, [70, 76]),
  (64259, [70, 70, 73]), (64260, [70, 70, 76]), (64261, [83, 84]), (64262, [83, 84]), (64275, [1348, 1350]),
  (64276, [1348, 1333]), (64277, [1348, 1339]), (64278, [1358, 1350]), (64279, [1348, 1341]), (65345, [65313]),
  (65346, [65314]), (65347, [65315]), (65348, [65316]), (65349, [65317]), (65350, [65318]),
  (65351, [65319]), (65352, [65320]), (65353, [65321]), (65354, [65322]), (65355, [65323]),
  (65356, [65324]), (65357, [65325]), (65358, [65326]), (65359, [65327]), (65360, [65328]),
  (65361, [65329]), (65362, [65330]), (65363, [65331]), (65364, [65332]), (65365, [65333]),
  (65366, [65334]), (65367, [65335]), (65368, [65336]), (65369, [65337]), (65370, [65338]),
  (66600, [66560]), (66601, [66561]), (66602, [66562]), (66603, [66563]), (66604, [66564]),
  (66605, [66565]), (66606, [66566]), (66607, [66567]), (66608, [66568]), (66609, [66569]),
  (66610, [66570]), (66611, [66571]), (66612, [66572]), (66613, [66573]), (66614, [66574]),
  (66615, [66575]), (66616, [66576]), (66617, [66577]), (66618, [66578]), (66619, [66579]),
  (66620, [66580]), (66621, [66581]), (66622, [66582]), (66623, [66583]), (66624, [66584]),
  (66625, [66585]), (66626, [66586]), (66627, [66587]), (66628, [66588]), (66629, [66589]),
  (66630, [66590]), (66631, [66591]), (66632, [66592]), (66633, [66593]), (66634, [66594]),
  (66635, [66595]), (66636, [66596]), (66637, [66597]), (66638, [66598]), (66639, [66599]),
  (66776, [66736]), (66777, [66737]), (66778, [66738]), (66779, [66739]), (66780, [66740]),
  (66781, [66741]), (66782, [66742]), (66783, [66743]), (66784, [66744]), (66785, [66745]),
  (66786, [66746]), (66787, [66747]), (66788, [66748]), (66789, [66749]), (66790, [66750]),
  (66791, [66751]), (66792, [66752]), (66793, [66753]), (66794, [66754]), (66795, [66755]),
  (66796, [66756]), (66797, [66757]), (66798, [66758]), (66799, [66759]), (66800, [66760]),
  (66801, [66761]), (66802, [66762]), (66803, [66763]), (66804, [66764]), (66805, [66765]),
  (66806, [66766]), (66807, [66767]), (66808, [66768]), (66809, [66769]), (66810, [66770]),
  (66811, [66771]), (66967, [66928]), (66968, [66929]), (66969, [66930]), (66970, [66931]),
  (66971, [66932]), (66972, [66933]), (66973, [66934]), (66974, [66935]), (66975, [66936]),
  (66976, [66937]), (66977, [66938]), (66979, [66940]), (66980, [66941]), (66981, [66942]),
  (66982, [66943]), (66983, [66944]), (66984, [66945]), (66985, [66946]), (66986, [66947]),
  (66987, [66948]), (66988, [66949]), (66989, [66950]), (66990, [66951]), (66991, [66952]),
  (66992, [66953]), (66993, [66954]), (66995, [66956]), (66996, [66957]), (66997, [66958]),
  (66998, [66959]), (66999, [66960]), (67000, [66961]), (67001, [66962]), (67003, [66964]),
  (67004, [66965]), (68800, [68736]), (68801, [68737]), (68802, [68738]), (68803, [68739]),
  (68804, [68740]), (68805, [68741]), (68806, [68742]), (68807, [68743]), (68808, [68744]),
  (68809, [68745]), (68810, [68746]), (68811, [68747]), (68812, [68748]), (68813, [68749]),
  (68814, [68750]), (68815, [68751]), (68816, [68752]), (68817, [68753]), (68818, [68754]),
  (68819, [68755]), (68820, [68756]), (68821, [68757]), (68822, [68758]), (68823, [68759]),
  (68824, [68760]), (68825, [68761]), (68826, [68762]), (68827, [68763]), (68828, [68764]),
  (68829, [68765]), (68830, [68766]), (68831, [68767]), (68832, [68768]), (68833, [68769]),
  (68834, [68770]), (68835, [68771]), (68836, [68772]), (68837, [68773]), (68838, [68774]),
  (68839, [68775]), (68840, [68776]), (68841, [68777]), (68842, [68778]), (68843, [68779]),
  (68844, [68780]), (68845, [68781]), (68846, [68782]), (68847, [68783]), (68848, [68784]),
  (68849, [68785]), (68850, [68786]), (71872, [71840]), (71873, [71841]), (71874, [71842]),
  (71875, [71843]), (71876, [71844]), (71877, [71845]), (71878, [71846]), (71879, [71847]),
  (71880, [71848]), (71881, [71849]), (71882, [71850]), (71883, [71851]), (71884, [71852]),
  (71885, [71853]), (71886, [71854]), (71887, [71855]), (71888, [71856]), (71889, [71857]),
  (71890, [71858]), (71891, [71859]), (71892, [71860]), (71893, [71861]), (71894, [71862]),
  (71895, [71863]), (71896, [71864]), (71897, [71865]), (71898, [71866]), (71899, [71867]),
  (71900, [71868]), (71901, [71869]), (71902, [71870]), (71903, [71871]), (93792, [93760]),
  (93793, [93761]), (93794, [93762]), (93795, [93763]), (93796, [93764]), (93797, [93765]),
  (93798, [93766]), (93799, [93767]), (93800, [93768]), (93801, [93769]), (93802, [93770]),
  (93803, [93771]), (93804, [93772]), (93805, [93773]), (93806, [93774]), (93807, [93775]),
  (93808, [93776]), (93809, [93777]), (93810, [93778]), (93811, [93779]), (93812, [93780]),
  (93813, [93781]), (93814, [93782]), (93815, [93783]), (93816, [93784]), (93817, [93785]),
  (93818, [93786]), (93819, [93787]), (93820, [93788]), (93821, [93789]), (93822, [93790]),
  (93823, [93791]), (125218, [125184]), (125219, [125185]), (125220, [125186]), (125221, [125187]),
  (125222, [125188]), (125223, [125189]), (125224, [125190]), (125225, [125191]), (125226, [125192]),
  (125227, [125193]), (125228, [125194]), (125229, [125195]), (125230, [125196]), (125231, [125197]),
  (125232, [125198]), (125233, [125199]), (125234, [125200]), (125235, [125201]), (125236, [125202]),
  (125237, [125203]), (125238, [125204]), (125239, [125205]), (125240, [125206]), (125241, [125207]),
  (125242, [125208]), (125243, [125209]), (125244, [125210]), (125245, [125211]), (125246, [125212]),
  (125247, [125213]), (125248, [125214]), (125249, [125215]), (125250, [125216]), (125251, [125217])]

def wordRanges : List (Nat × Nat) := [
  (48, 57), (65, 90), (95, 95), (97, 122), (170, 170), (178, 179),
  (181, 181), (185, 186), (188, 190), (192, 214), (216, 246), (248, 705),
  (710, 721), (736, 740), (748, 748), (750, 750), (880, 884), (886, 887),
  (890, 893), (895, 895), (902, 902), (904, 906), (908, 908), (910, 929),
  (931, 1013), (1015, 1153), (1162, 1327), (1329, 1366), (1369, 1369), (1376, 1416),
  (1488, 1514), (1519, 1522), (1568, 1610), (1632, 1641), (1646, 1647), (1649, 1747),
  (1749, 1749), (1765, 1766), (1774, 1788), (1791, 1791), (1808, 1808), (1810, 1839),
  (1869, 1957), (1969, 1969), (1984, 2026), (2036, 2037), (2042, 2042), (2048, 2069),
  (2074, 2074), (2084, 2084), (2088, 2088), (2112, 2136), (2144, 2154), (2160, 2183),
  (2185, 2190), (2208, 2249), (2308, 2361), (2365, 2365), (2384, 2384), (2392, 2401),
  (2406, 2415), (2417, 2432), (2437, 2444), (2447, 2448), (2451, 2472), (2474, 2480),
  (2482, 2482), (2486, 2489), (2493, 2493), (2510, 2510), (2524, 2525), (2527, 2529),
  (2534, 2545), (2548, 2553), (2556, 2556), (2565, 2570), (2575, 2576), (2579, 2600),
  (2602, 2608), (2610, 2611), (2613, 2614), (2616, 2617), (2649, 2652), (2654, 2654),
  (2662, 2671), (2674, 2676), (2693, 2701), (2703, 2705), (2707, 2728), (2730, 2736),
  (2738, 2739), (2741, 2745), (2749, 2749), (2768, 2768), (2784, 2785), (2790, 2799),
  (2809, 2809), (2821, 2828), (2831, 2832), (2835, 2856), (2858, 2864), (2866, 2867),
  (2869, 2873), (2877, 2877), (2908, 2909), (2911, 2913), (2918, 2927), (2929, 2935),
  (2947, 2947), (2949, 2954), (2958, 2960), (2962, 2965), (2969, 2970), (2972, 2972),
  (2974, 2975), (2979, 2980), (2984, 2986), (2990, 3001), (3024, 3024), (3046, 3058),
  (3077, 3084), (3086, 3088), (3090, 3112), (3114, 3129), (3133, 3133), (3160, 3162),
  (3165, 3165), (3168, 3169), (3174, 3183), (3192, 3198), (3200, 3200), (3205, 3212),
  (3214, 3216), (3218, 3240), (3242, 3251), (3253, 3257), (3261, 3261), (3293, 3294),
  (3296, 3297), (3302, 3311), (3313, 3314), (3332, 3340), (3342, 3344), (3346, 3386),
  (3389, 3389), (3406, 3406), (3412, 3414), (3416, 3425), (3430, 3448), (3450, 3455),
  (3461, 3478), (3482, 3505), (3507, 3515), (3517, 3517), (3520, 3526), (3558, 3567),
  (3585, 3632), (3634, 3635), (3648, 3654), (3664, 3673), (3713, 3714), (3716, 3716),
  (3718, 3722), (3724, 3747), (3749, 3749), (3751, 3760), (3762, 3763), (3773, 3773),
  (3776, 3780), (3782, 3782), (3792, 3801), (3804, 3807), (3840, 3840), (3872, 3891),
  (3904, 3911), (3913, 3948), (3976, 3980), (4096, 4138), (4159, 4169), (4176, 4181),
  (4186, 4189), (4193, 4193), (4197, 4198), (4206, 4208), (4213, 4225), (4238, 4238),
  (4240, 4249), (4256, 4293), (4295, 4295), (4301, 4301), (4304, 4346), (4348, 4680),
  (4682, 4685), (4688, 4694), (4696, 4696), (4698, 4701), (4704, 4744), (4746, 4749),
  (4752, 4784), (4786, 4789), (4792, 4798), (4800, 4800), (4802, 4805), (4808, 4822),
  (4824, 4880), (4882, 4885), (4888, 4954), (4969, 4988), (4992, 5007), (5024, 5109),
  (5112, 5117), (5121, 5740), (5743, 5759), (5761, 5786), (5792, 5866), (5870, 5880),
  (5888, 5905), (5919, 5937), (5952, 5969), (5984, 5996), (5998, 6000), (6016, 6067),
  (6103, 6103), (6108, 6108), (6112, 6121), (6128, 6137), (6160, 6169), (6176, 6264),
  (6272, 6276), (6279, 6312), (6314, 6314), (6320, 6389), (6400, 6430), (6470, 6509),
  (6512, 6516), (6528, 6571), (6576, 6601), (6608, 6618), (6656, 6678), (6688, 6740),
  (6784, 6793), (6800, 6809), (6823, 6823), (6917, 6963), (6981, 6988), (6992, 7001),
  (7043, 7072), (7086, 7141), (7168, 7203), (7232, 7241), (7245, 7293), (7296, 7304),
  (7312, 7354), (7357, 7359), (7401, 7404), (7406, 7411), (7413, 7414), (7418, 7418),
  (7424, 7615), (7680, 7957), (7960, 7965), (7968, 8005), (8008, 8013), (8016, 8023),
  (8025, 8025), (8027, 8027), (8029, 8029), (8031, 8061), (8064, 8116), (8118, 8124),
  (8126, 8126), (8130, 8132), (8134, 8140), (8144, 8147), (8150, 8155), (8160, 8172),
  (8178, 8180), (8182, 8188), (8304, 8305), (8308, 8313), (8319, 8329), (8336, 8348),
  (8450, 8450), (8455, 8455), (8458, 8467), (8469, 8469), (8473, 8477), (8484, 8484),
  (8486, 8486), (8488, 8488), (8490, 8493), (8495, 8505), (8508, 8511), (8517, 8521),
  (8526, 8526), (8528, 8585), (9312, 9371), (9450, 9471), (10102, 10131), (11264, 11492),
  (11499, 11502), (11506, 11507), (11517, 11517), (11520, 11557), (11559, 11559), (11565, 11565),
  (11568, 11623), (11631, 11631), (11648, 11670), (11680, 11686), (11688, 11694), (11696, 11702),
  (11704, 11710), (11712, 11718), (11720, 11726), (11728, 11734), (11736, 11742), (11823, 11823),
  (12293, 12295), (12321, 12329), (12337, 12341), (12344, 12348), (12353, 12438), (12445, 12447),
  (12449, 12538), (12540, 12543), (12549, 12591), (12593, 12686), (12690, 12693), (12704, 12735),
  (12784, 12799), (12832, 12841), (12872, 12879), (12881, 12895), (12928, 12937), (12977, 12991),
  (13312, 19903), (19968, 42124), (42192, 42237), (42240, 42508), (42512, 42539), (42560, 42606),
  (42623, 42653), (42656, 42735), (42775, 42783), (42786, 42888), (42891, 42954), (42960, 42961),
  (42963, 42963), (42965, 42969), (42994, 43009), (43011, 43013), (43015, 43018), (43020, 43042),
  (43056, 43061), (43072, 43123), (43138, 43187), (43216, 43225), (43250, 43255), (43259, 43259),
  (43261, 43262), (43264, 43301), (43312, 43334), (43360, 43388), (43396, 43442), (43471, 43481),
  (43488, 43492), (43494, 43518), (43520, 43560), (43584, 43586), (43588, 43595), (43600, 43609),
  (43616, 43638), (43642, 43642), (43646, 43695), (43697, 43697), (43701, 43702), (43705, 43709),
  (43712, 43712), (43714, 43714), (43739, 43741), (43744, 43754), (43762, 43764), (43777, 43782),
  (43785, 43790), (43793, 43798), (43808, 43814), (43816, 43822), (43824, 43866), (43868, 43881),
  (43888, 44002), (44016, 44025), (44032, 55203), (55216, 55238), (55243, 55291), (63744, 64109),
  (64112, 64217), (64256, 64262), (64275, 64279), (64285, 64285), (64287, 64296), (64298, 64310),
  (64312, 64316), (64318, 64318), (64320, 64321), (64323, 64324), (64326, 64433), (64467, 64829),
  (64848, 64911), (64914, 64967), (65008, 65019), (65136, 65140), (65142, 65276), (65296, 65305),
  (65313, 65338), (65345, 65370), (65382, 65470), (65474, 65479), (65482, 65487), (65490, 65495),
  (65498, 65500), (65536, 65547), (65549, 65574), (65576, 65594), (65596, 65597), (65599, 65613),
  (65616, 65629), (65664, 65786), (65799, 65843), (65856, 65912), (65930, 65931), (66176, 66204),
  (66208, 66256), (66273, 66299), (66304, 66339), (66349, 66378), (66384, 66421), (66432, 66461),
  (66464, 66499), (66504, 66511), (66513, 66517), (66560, 66717), (66720, 66729), (66736, 66771),
  (66776, 66811), (66816, 66855), (66864, 66915), (66928, 66938), (66940, 66954), (66956, 66962),
  (66964, 66965), (66967, 66977), (66979, 66993), (66995, 67001), (67003, 67004), (67072, 67382),
  (67392, 67413), (67424, 67431), (67456, 67461), (67463, 67504), (67506, 67514), (67584, 67589),
  (67592, 67592), (67594, 67637), (67639, 67640), (67644, 67644), (67647, 67669), (67672, 67702),
  (67705, 67742), (67751, 67759), (67808, 67826), (67828, 67829), (67835, 67867), (67872, 67897),
  (67968, 68023), (68028, 68047), (68050, 68096), (68112, 68115), (68117, 68119), (68121, 68149),
  (68160, 68168), (68192, 68222), (68224, 68255), (68288, 68295), (68297, 68324), (68331, 68335),
  (68352, 68405), (68416, 68437), (68440, 68466), (68472, 68497), (68521, 68527), (68608, 68680),
  (68736, 68786), (68800, 68850), (68858, 68899), (68912, 68921), (69216, 69246), (69248, 69289),
  (69296, 69297), (69376, 69415), (69424, 69445), (69457, 69460), (69488, 69505), (69552, 69579),
  (69600, 69622), (69635, 69687), (69714, 69743), (69745, 69746), (69749, 69749), (69763, 69807),
  (69840, 69864), (69872, 69881), (69891, 69926), (69942, 69951), (69956, 69956), (69959, 69959),
  (69968, 70002), (70006, 70006), (70019, 70066), (70081, 70084), (70096, 70106), (70108, 70108),
  (70113, 70132), (70144, 70161), (70163, 70187), (70272, 70278), (70280, 70280), (70282, 70285),
  (70287, 70301), (70303, 70312), (70320, 70366), (70384, 70393), (70405, 70412), (70415, 70416),
  (70419, 70440), (70442, 70448), (70450, 70451), (70453, 70457), (70461, 70461), (70480, 70480),
  (70493, 70497), (70656, 70708), (70727, 70730), (70736, 70745), (70751, 70753), (70784, 70831),
  (70852, 70853), (70855, 70855), (70864, 70873), (71040, 71086), (71128, 71131), (71168, 71215),
  (71236, 71236), (71248, 71257), (71296, 71338), (71352, 71352), (71360, 71369), (71424, 71450),
  (71472, 71483), (71488, 71494), (71680, 71723), (71840, 71922), (71935, 71942), (71945, 71945),
  (71948, 71955), (71957, 71958), (71960, 71983), (71999, 71999), (72001, 72001), (72016, 72025),
  (72096, 72103), (72106, 72144), (72161, 72161), (72163, 72163), (72192, 72192), (72203, 72242),
  (72250, 72250), (72272, 72272), (72284, 72329), (72349, 72349), (72368, 72440), (72704, 72712),
  (72714, 72750), (72768, 72768), (72784, 72812), (72818, 72847), (72960, 72966), (72968, 72969),
  (72971, 73008), (73030, 73030), (73040, 73049), (73056, 73061), (73063, 73064), (73066, 73097),
  (73112, 73112), (73120, 73129), (73440, 73458), (73648, 73648), (73664, 73684), (73728, 74649),
  (74752, 74862), (74880, 75075), (77712, 77808), (77824, 78894), (82944, 83526), (92160, 92728),
  (92736, 92766), (92768, 92777), (92784, 92862), (92864, 92873), (92880, 92909), (92928, 92975),
  (92992, 92995), (93008, 93017), (93019, 93025), (93027, 93047), (93053, 93071), (93760, 93846),
  (93952, 94026), (94032, 94032), (94099, 94111), (94176, 94177), (94179, 94179), (94208, 100343),
  (100352, 101589), (101632, 101640), (110576, 110579), (110581, 110587), (110589, 110590), (110592, 110882),
  (110928, 110930), (110948, 110951), (110960, 111355), (113664, 113770), (113776, 113788), (113792, 113800),
  (113808, 113817), (119520, 119539), (119648, 119672), (119808, 119892), (119894, 119964), (119966, 119967),
  (119970, 119970), (119973, 119974), (119977, 119980), (119982, 119993), (119995, 119995), (119997, 120003),
  (120005, 120069), (120071, 120074), (120077, 120084), (120086, 120092), (120094, 120121), (120123, 120126),
  (120128, 120132), (120134, 120134), (120138, 120144), (120146, 120485), (120488, 120512), (120514, 120538),
  (120540, 120570), (120572, 120596), (120598, 120628), (120630, 120654), (120656, 120686), (120688, 120712),
  (120714, 120744), (120746, 120770), (120772, 120779), (120782, 120831), (122624, 122654), (123136, 123180),
  (123191, 123197), (123200, 123209), (123214, 123214), (123536, 123565), (123584, 123627), (123632, 123641),
  (124896, 124902), (124904, 124907), (124909, 124910), (124912, 124926), (124928, 125124), (125127, 125135),
  (125184, 125251), (125259, 125259), (125264, 125273), (126065, 126123), (126125, 126127), (126129, 126132),
  (126209, 126253), (126255, 126269), (126464, 126467), (126469, 126495), (126497, 126498), (126500, 126500),
  (126503, 126503), (126505, 126514), (126516, 126519), (126521, 126521), (126523, 126523), (126530, 126530),
  (126535, 126535), (126537, 126537), (126539, 126539), (126541, 126543), (126545, 126546), (126548, 126548),
  (126551, 126551), (126553, 126553), (126555, 126555), (126557, 126557), (126559, 126559), (126561, 126562),
  (126564, 126564), (126567, 126570), (126572, 126578), (126580, 126583), (126585, 126588), (126590, 126590),
  (126592, 126601), (126603, 126619), (126625, 126627), (126629, 126633), (126635, 126651), (127232, 127244),
  (130032, 130041), (131072, 173791), (173824, 177976), (177984, 178205), (178208, 183969), (183984, 191456),
  (194560, 195101), (196608, 201546)]

def ndRanges : List (Nat × Nat) := [
  (48, 57), (1632, 1641), (1776, 1785), (1984, 1993), (2406, 2415), (2534, 2543),
  (2662, 2671), (2790, 2799), (2918, 2927), (3046, 3055), (3174, 3183), (3302, 3311),
  (3430, 3439), (3558, 3567), (3664, 3673), (3792, 3801), (3872, 3881), (4160, 4169),
  (4240, 4249), (6112, 6121), (6160, 6169), (6470, 6479), (6608, 6617), (6784, 6793),
  (6800, 6809), (6992, 7001), (7088, 7097), (7232, 7241), (7248, 7257), (42528, 42537),
  (43216, 43225), (43264, 43273), (43472, 43481), (43504, 43513), (43600, 43609), (44016, 44025),
  (65296, 65305), (66720, 66729), (68912, 68921), (69734, 69743), (69872, 69881), (69942, 69951),
  (70096, 70105), (70384, 70393), (70736, 70745), (70864, 70873), (71248, 71257), (71360, 71369),
  (71472, 71481), (71904, 71913), (72016, 72025), (72784, 72793), (73040, 73049), (73120, 73129),
  (92768, 92777), (92864, 92873), (93008, 93017), (120782, 120831), (123200, 123209), (123632, 123641),
  (125264, 125273), (130032, 130041)]

def ciExtraPairs : List (Nat × Nat) := [(115, 383)]

/-- Python `str.isalpha` on a single character: the Unicode letter
categories Lu, Ll, Lt, Lm, Lo.  This is the same predicate as
`unicodedata.category(char).startswith('L')`, which the source uses in its
character filter. -/
def isUnicodeLetter (c : Char) : Bool := inRanges letterRanges c

/-- Python `str.islower` on a single character. -/
def pyIsLower (c : Char) : Bool := inRanges lowerRanges c

/-- Python `str.upper` on a single character (the full Unicode uppercase
mapping, which may map one character to several).  Characters without an
entry in `upperTable` are fixed by `str.upper`. -/
def pyUpperChar (c : Char) : List Char :=
  match upperTable.find? (fun e => e.1 == c.toNat) with
  | some e => e.2.map Char.ofNat
  | none => [c]

/-- The character class of Python's regex `\w` (word characters). -/
def isWordChar (c : Char) : Bool := inRanges wordRanges c

/-- The character class of Python's regex `\d` (Unicode decimal digits,
category Nd).  Every range of `ndRanges` is a full aligned run of the
digits 0 to 9, so the decimal value of a digit is its offset in its range
reduced mod 10. -/
def isReDigit (c : Char) : Bool := inRanges ndRanges c

/-- The decimal value of a character in category Nd (0 for others). -/
def digitVal (c : Char) : Nat :=
  match ndRanges.find? (fun r => r.1 ≤ c.toNat && c.toNat ≤ r.2) with
  | some r => (c.toNat - r.1) % 10
  | none => 0

/-- ASCII-only lowercasing, used to model `re.IGNORECASE` literal matching. -/
def asciiLower (c : Char) : Char :=
  if 65 ≤ c.toNat && c.toNat ≤ 90 then Char.ofNat (c.toNat + 32) else c

/-- Matching of one literal pattern character `p` against one text
character `c` under Python's `re.IGNORECASE`.  For the pattern characters
occurring in the source's abbreviation table (ASCII letters and `.`),
an exhaustive scan of the CPython regex engine shows the relation is
ASCII-case-insensitive equality plus the extra pairs of `ciExtraPairs`
(the long s `ſ`, U+017F, matches the pattern letter `s`). -/
def reCharMatch (p c : Char) : Bool :=
  asciiLower p == asciiLower c || ciExtraPairs.contains ((asciiLower p).toNat, c.toNat)

/-- The source's `VIETNAMESE_CHARS` set: Vietnamese alphabetic characters
with all tone-mark combinations, lower and upper case, in composed form. -/
def VIETNAMESE_CHARS : List Char :=
  ("aàảãáạăằẳẵắặâầẩẫấậ" ++
   "eèẻẽéẹêềểễếệ" ++
   "iìỉĩíị" ++
   "oòỏõóọôồổỗốộơờởỡớợ" ++
   "uùủũúụưừửữứự" ++
   "yỳỷỹýỵ" ++
   "đ" ++
   "AÀẢÃÁẠĂẰẲẴẮẶÂẦẨẪẤẬ" ++
   "EÈẺẼÉẸÊỀỂỄẾỆ" ++
   "IÌỈĨÍỊ" ++
   "OÒỎÕÓỌÔỒỔỖỐỘƠỜỞỠỚỢ" ++
   "UÙỦŨÚỤƯỪỬỮỨỰ" ++
   "YỲỶỸÝỴ" ++
   "Đ").data

/-- The source's `ABBREVIATIONS` table, in insertion order (Python dicts
iterate in insertion order). -/
def ABBREVIATIONS : List (String × String) := [
  ("tp.", "thành phố"), ("TP.", "thành phố"),
  ("ths.", "thạc sĩ"), ("ThS.", "thạc sĩ"),
  ("ts.", "tiến sĩ"), ("TS.", "tiến sĩ"),
  ("gs.", "giáo sư"), ("GS.", "giáo sư"),
  ("pgs.", "phó giáo sư"), ("PGS.", "phó giáo sư"),
  ("q.", "quận"), ("Q.", "quận"),
  ("p.", "phường"), ("P.", "phường"),
  ("tx.", "thị xã"), ("TX.", "thị xã"),
  ("tt.", "thị trấn"), ("TT.", "thị trấn")]

/-- The source's `NUMBER_WORDS` table. -/
def NUMBER_WORDS : List (String × String) := [
  ("0", "không"), ("1", "một"), ("2", "hai"), ("3", "ba"), ("4", "bốn"),
  ("5", "năm"), ("6", "sáu"), ("7", "bảy"), ("8", "tám"), ("9", "chín"),
  ("10", "mười")]

/-- Lookup in `NUMBER_WORDS` with the key itself as default, as in
`NUMBER_WORDS.get(d, d)`.  The source's indexing `NUMBER_WORDS[str(num)]`
is only ever reached with keys "0".."9", which are all present, so the
default is never returned on its behalf. -/
def nwGet (k : String) : String :=
  ((NUMBER_WORDS.find? (fun p => p.1 == k)).map (fun p => p.2)).getD k

/-- Translation of `number_to_vietnamese` on non-negative inputs.  The
Python locals (`ones`, `tens`, `result`, ...) are inlined; `+` on strings
is `++`, associated to the left as in the sequential Python concatenation. -/
def numberToVietnameseNat (n : Nat) : String :=
  if n = 0 then "không"
  else if n < 10 then nwGet (toString n)
  else if n < 20 then
    if n = 10 then "mười"
    else if n % 10 = 5 then "mười lăm"
    else "mười " ++ nwGet (toString (n % 10))
  else if n < 100 then
    if n % 10 = 0 then nwGet (toString (n / 10)) ++ " mươi"
    else if n % 10 = 1 then nwGet (toString (n / 10)) ++ " mươi" ++ " mốt"
    else if n % 10 = 5 then nwGet (toString (n / 10)) ++ " mươi" ++ " lăm"
    else nwGet (toString (n / 10)) ++ " mươi" ++ " " ++ nwGet (toString (n % 10))
  else if n < 1000 then
    if n % 100 = 0 then nwGet (toString (n / 100)) ++ " trăm"
    else if n % 100 < 10 then nwGet (toString (n / 100)) ++ " trăm" ++ " lẻ " ++ nwGet (toString (n % 100))
    else nwGet (toString (n / 100)) ++ " trăm" ++ " " ++ numberToVietnameseNat (n % 100)
  else if n < 1000000 then
    if n % 1000 = 0 then numberToVietnameseNat (n / 1000) ++ " nghìn"
    else if n % 1000 < 100 then
      numberToVietnameseNat (n / 1000) ++ " nghìn" ++ " không trăm " ++ numberToVietnameseNat (n % 1000)
    else numberToVietnameseNat (n / 1000) ++ " nghìn" ++ " " ++ numberToVietnameseNat (n % 1000)
  else
    String.intercalate " " ((Nat.toDigits 10 n).map (fun d => nwGet (String.mk [d])))
termination_by n
decreasing_by all_goals omega

/-- Translation of `number_to_vietnamese` on arbitrary integers; a negative
input recurses once through the non-negative case with the prefix "âm ". -/
def number_to_vietnamese (num : Int) : String :=
  if num < 0 then "âm " ++ numberToVietnameseNat (-num).toNat
  else numberToVietnameseNat num.toNat

/-- Fuel-bounded evaluator for `numberToVietnameseNat`: every recursive
call of the source consumes one unit of fuel, and `none` is returned when
the allowed recursion depth is exhausted.  Structurally recursive on the
fuel, hence computable by the kernel. -/
def ntvGoNat (fuel n : Nat) : Option String :=
  if n = 0 then some "không"
  else if n < 10 then some (nwGet (toString n))
  else if n < 20 then
    if n = 10 then some "mười"
    else if n % 10 = 5 then some "mười lăm"
    else some ("mười " ++ nwGet (toString (n % 10)))
  else if n < 100 then
    if n % 10 = 0 then some (nwGet (toString (n / 10)) ++ " mươi")
    else if n % 10 = 1 then some (nwGet (toString (n / 10)) ++ " mươi" ++ " mốt")
    else if n % 10 = 5 then some (nwGet (toString (n / 10)) ++ " mươi" ++ " lăm")
    else some (nwGet (toString (n / 10)) ++ " mươi" ++ " " ++ nwGet (toString (n % 10)))
  else if n < 1000 then
    if n % 100 = 0 then some (nwGet (toString (n / 100)) ++ " trăm")
    else if n % 100 < 10 then some (nwGet (toString (n / 100)) ++ " trăm" ++ " lẻ " ++ nwGet (toString (n % 100)))
    else
      match fuel with
      | 0 => none
      | f + 1 =>
        (ntvGoNat f (n % 100)).map (fun s => nwGet (toString (n / 100)) ++ " trăm" ++ " " ++ s)
  else if n < 1000000 then
    match fuel with
    | 0 => none
    | f + 1 =>
      (ntvGoNat f (n / 1000)).bind (fun t =>
        if n % 1000 = 0 then some (t ++ " nghìn")
        else
          (ntvGoNat f (n % 1000)).map (fun r =>
            if n % 1000 < 100 then t ++ " nghìn" ++ " không trăm " ++ r
            else t ++ " nghìn" ++ " " ++ r))
  else
    some (String.intercalate " " ((Nat.toDigits 10 n).map (fun d => nwGet (String.mk [d]))))

/-- Fuel-bounded evaluator for `number_to_vietnamese` on integers; the
recursive call in the negative case consumes one unit of fuel. -/
def ntvFuel (fuel : Nat) (num : Int) : Option String :=
  if num < 0 then
    match fuel with
    | 0 => none
    | f + 1 => (ntvGoNat f (-num).toNat).map (fun s => "âm " ++ s)
  else ntvGoNat fuel num.toNat

/-- Number of decimal digits of a natural number (one digit for 0). -/
def numDigits (n : Nat) : Nat :=
  if n < 10 then 1 else numDigits (n / 10) + 1
termination_by n
decreasing_by omega

/-- Python `str.isascii` on a single character (codepoint below 128). -/
def pyIsAscii (c : Char) : Bool := c.toNat ≤ 127

/-- Accumulator-based splitter implementing Python `text.split()` (split on
runs of whitespace, discarding empty fields); `cur` holds the characters of
the current field in reverse. -/
def pySplitGo (cur : List Char) : List Char → List (List Char)
  | [] => if cur = [] then [] else [cur.reverse]
  | c :: cs =>
    if pyIsSpace c then
      if cur = [] then pySplitGo [] cs else cur.reverse :: pySplitGo [] cs
    else pySplitGo (c :: cur) cs

/-- Python `text.split()`. -/
def pySplit (t : List Char) : List (List Char) := pySplitGo [] t

/-- Python `' '.join(fields)`: the fields joined by single spaces. -/
def joinSp : List (List Char) → List Char
  | [] => []
  | [tk] => tk
  | tk :: tks => tk ++ ' ' :: joinSp tks

/-- Python `' '.join(text.split())`: collapse every whitespace run to a
single space and trim the ends. -/
def collapseWs (t : List Char) : List Char := joinSp (pySplit t)

/-- Python `text.strip()`: remove leading and trailing whitespace. -/
def pyStrip (t : List Char) : List Char :=
  ((t.dropWhile pyIsSpace).reverse.dropWhile pyIsSpace).reverse

/-- Case-insensitive literal prefix match: does the `re.escape`d
abbreviation literal `ab`, compiled with `re.IGNORECASE`, match at the
start of the text `t`? -/
def matchCI : List Char → List Char → Bool
  | [], _ => true
  | _ :: _, [] => false
  | p :: ps, c :: cs => reCharMatch p c && matchCI ps cs

/-- One `pattern.sub(expansion, text)` pass for the compiled pattern
`(?:^|(?<=\s))` + `re.escape(abbr)` with `re.IGNORECASE`: a left-to-right,
non-overlapping scan that replaces the literal wherever it matches at the
start of the text or right after a whitespace character.  The Boolean
argument is the boundary state (true at the start of the text, and after a
whitespace character); the `Nat` argument counts text characters of an
already-replaced match that remain to be consumed, making the function
structurally recursive on the text.  (The abbreviation table never holds an
empty literal, so the `ab = []` behavior of this model is never relied on.) -/
def subGo (ab ex : List Char) : Nat → Bool → List Char → List Char
  | _, _, [] => []
  | k + 1, _, c :: cs => subGo ab ex k (pyIsSpace c) cs
  | 0, b, c :: cs =>
    if b && matchCI ab (c :: cs) then ex ++ subGo ab ex (ab.length - 1) (pyIsSpace c) cs
    else c :: subGo ab ex 0 (pyIsSpace c) cs

/-- `re.compile(r'(?:^|(?<=\s))' + re.escape(ab), re.IGNORECASE).sub(ex, t)`. -/
def subAbbr (ab ex : List Char) (t : List Char) : List Char := subGo ab ex 0 true t

/-- The abbreviation-expansion loop of `vietnamese_normalize`: one `sub`
pass per table entry, in insertion order. -/
def applyAbbrevs (t : List Char) : List Char :=
  ABBREVIATIONS.foldl (fun acc e => subAbbr e.1.data e.2.data acc) t

/-- The punctuation allow-list string `' .,!?;:\'"()-'` of the character
filter (it starts with a space). -/
def filterPunct : List Char := " .,!?;:'\"()-".data

/-- The first retain-condition of the character filter:
`char.isascii() or char in VIETNAMESE_CHARS or char in ' .,!?;:\'"()-'`. -/
def keepPrimary (c : Char) : Bool :=
  pyIsAscii c || VIETNAMESE_CHARS.contains c || filterPunct.contains c

/-- The character-filter loop of `vietnamese_normalize`: keep a character
if `keepPrimary` holds, otherwise keep it if its Unicode category starts
with L, otherwise drop it. -/
def filterStep : List Char → List Char
  | [] => []
  | c :: cs =>
    if keepPrimary c then c :: filterStep cs
    else if isUnicodeLetter c then c :: filterStep cs
    else filterStep cs

/-- The combined retain-condition of the character filter. -/
def keepChar (c : Char) : Bool := keepPrimary c || isUnicodeLetter c

/-- Modelled from the spec: step 1 of the normalizer is Unicode NFC
canonicalization, `unicodedata.normalize('NFC', text)`, performed by the
external `unicodedata` library, which is not part of this repository.  It
is modelled as the identity mapping: every character table in this file is
given in composed (NFC) form, and every concrete string appearing in this
development is a fixed point of NFC. -/
def nfc (t : List Char) : List Char := t

/-- Translation of `vietnamese_normalize` (list form).  An empty (falsy)
input is returned unchanged; otherwise: NFC, abbreviation expansion when
requested, whitespace collapse, character filter, strip. -/
def vietnameseNormalizeList (t : List Char) (expandAbbreviations : Bool) : List Char :=
  if t = [] then t
  else pyStrip (filterStep (collapseWs
    (if expandAbbreviations then applyAbbrevs (nfc t) else nfc t)))

/-- Translation of `vietnamese_normalize`. -/
def vietnamese_normalize (s : String) (expandAbbreviations : Bool := true) : String :=
  String.mk (vietnameseNormalizeList s.data expandAbbreviations)

/-- Translation of the loop of `validate_vietnamese_text`. -/
def validateList : List Char → Bool
  | [] => true
  | c :: cs =>
    if isUnicodeLetter c && !VIETNAMESE_CHARS.contains c && !pyIsAscii c then false
    else validateList cs

/-- Translation of `validate_vietnamese_text`. -/
def validate_vietnamese_text (s : String) : Bool := validateList s.data

/-- The value of a run of `\d` digits, as computed by Python `int()` (which
accepts every Unicode decimal digit; on a non-empty all-digit string it
never raises, so the `except ValueError` branch of `replace_number` is
unreachable). -/
def digitsVal (run : List Char) : Nat := run.foldl (fun a c => a * 10 + digitVal c) 0

mutual
/-- Scanner implementing `re.sub(r'\b\d+\b', replace_number, text)`.  The
flag records whether the previous character is a `\w` word character (false
at the start of the string): a match of `\b\d+\b` can begin only where the
previous character is not a word character, covers a maximal digit run, and
requires the character after the run to not be a word character. -/
def expandGo : Bool → List Char → List Char
  | _, [] => []
  | pw, c :: cs =>
    if !pw && isReDigit c then expandRun [c] cs
    else c :: expandGo (isWordChar c) cs

/-- Inside a candidate digit run whose start was at a word boundary; `acc`
holds the digits seen so far, in reverse.  At the end of the run the text
either ends or continues with a non-digit: if that continuation character
is a word character the trailing `\b` fails and the run is kept verbatim,
otherwise the run is replaced by its Vietnamese number phrase. -/
def expandRun (acc : List Char) : List Char → List Char
  | [] => (number_to_vietnamese (Int.ofNat (digitsVal acc.reverse))).data
  | c :: cs =>
    if isReDigit c then expandRun (c :: acc) cs
    else if isWordChar c then acc.reverse ++ c :: expandGo true cs
    else (number_to_vietnamese (Int.ofNat (digitsVal acc.reverse))).data ++ c :: expandGo false cs
end

/-- Translation of `expand_numbers`. -/
def expand_numbers (s : String) : String := String.mk (expandGo false s.data)

mutual
/-- Computable clone of `expandGo` (see `expandGo_eq_fuel`). -/
def expandGoC : Bool → List Char → List Char
  | _, [] => []
  | pw, c :: cs =>
    if !pw && isReDigit c then expandRunC [c] cs
    else c :: expandGoC (isWordChar c) cs

/-- Computable clone of `expandRun` (see `expandGo_eq_fuel`). -/
def expandRunC (acc : List Char) : List Char → List Char
  | [] => ((ntvFuel ((Int.ofNat (digitsVal acc.reverse)).natAbs + 1) (Int.ofNat (digitsVal acc.reverse))).getD "").data
  | c :: cs =>
    if isReDigit c then expandRunC (c :: acc) cs
    else if isWordChar c then acc.reverse ++ c :: expandGoC true cs
    else ((ntvFuel ((Int.ofNat (digitsVal acc.reverse)).natAbs + 1) (Int.ofNat (digitsVal acc.reverse))).getD "").data ++ c :: expandGoC false cs
end

/-- The characters of the prosody-spacing class `[.,!?;:]`. -/
def punctChars : List Char := ".,!?;:".data

/-- `re.sub(r'([.,!?;:])', r' \1 ', text)`: surround each occurrence of the
six punctuation characters with one space on each side. -/
def punctSpace : List Char → List Char
  | [] => []
  | c :: cs =>
    if punctChars.contains c then ' ' :: c :: ' ' :: punctSpace cs
    else c :: punctSpace cs

/-- `if text and text[0].islower(): text = text[0].upper() + text[1:]`. -/
def capitalizeFirst : List Char → List Char
  | [] => []
  | c :: cs => if pyIsLower c then pyUpperChar c ++ cs else c :: cs

/-- Translation of `preprocess_for_tts` (list form): normalize, expand
numbers, isolate punctuation and re-collapse whitespace, capitalize the
first letter. -/
def preprocessList (t : List Char) : List Char :=
  capitalizeFirst (collapseWs (punctSpace (expandGo false (vietnameseNormalizeList t true))))

/-- Translation of `preprocess_for_tts`. -/
def preprocess_for_tts (s : String) : String := String.mk (preprocessList s.data)

/-- Translation of `segment_words`, with the external `underthesea`
collaborator abstracted as parameters: `hasCap` is the module-level
`HAS_UNDERTHESEA` flag computed once at import time (when the import fails,
`vn_word_tokenize` is `None` as well, so a single flag captures the guard
`HAS_UNDERTHESEA and vn_word_tokenize`), and `tok` models the external call
`vn_word_tokenize(text, format="text")`, returning either a value or the
message of a raised exception.  The result pairs the returned text with the
list of emitted warning-log messages. -/
def segment_words (hasCap : Bool) (tok : String → Except String String)
    (text : String) : String × List String :=
  if hasCap then
    match tok text with
    | .ok r => (r, [])
    | .error e => (text, ["Word segmentation failed: " ++ e])
  else (text, [])

/-- No two adjacent whitespace characters. -/
def noTwoWs : List Char → Bool
  | [] => true
  | [_] => true
  | c :: d :: t => !(pyIsSpace c && pyIsSpace d) && noTwoWs (d :: t)

/-- Scan deciding whether the case-insensitive literal `ab` occurs anywhere
at a token boundary (tracked by the Boolean flag: start of scan or right
after a whitespace character) in the text. -/
def noBoundaryOcc (ab : List Char) : Bool → List Char → Bool
  | _, [] => true
  | b, c :: cs => !(b && matchCI ab (c :: cs)) && noBoundaryOcc ab (pyIsSpace c) cs

/-- Whether a text is empty or begins with a whitespace character. -/
def headWsOrNil (r : List Char) : Prop :=
  match r with
  | [] => True
  | c :: _ => pyIsSpace c = true

/-- No character of the literal pattern can match a whitespace character
under `re.IGNORECASE` (sufficient decidable form). -/
def patNoWs (ab : List Char) : Bool := ab.all (fun p => !pyIsSpace (asciiLower p))

/-- Token-level effect of one substitution pass: a field that begins with a
case-insensitive occurrence of the literal (necessarily at its start, which
is a token boundary) is rewritten to the expansion followed by the rest of
the field; every other field is unchanged. -/
def rtk (ab ex tk : List Char) : List Char :=
  if matchCI ab tk then ex ++ tk.drop ab.length else tk

/-- Token-level view of the whole abbreviation loop: the fields after the
remaining substitution passes. -/
def foldTokens (es : List (String × String)) (tks : List (List Char)) : List (List Char) :=
  es.foldl (fun acc e => acc.flatMap (fun tk => pySplit (rtk e.1.data e.2.data tk))) tks

/-- Not matched, case-insensitively at its start, by any abbreviation
literal of the table. -/
def neverTok (tk : List Char) : Prop := ∀ e ∈ ABBREVIATIONS, matchCI e.1.data tk = false

/-- Soundness of the fuel evaluator: whenever it returns a value, that
value is the one computed by the recursive source function. -/
theorem ntvGoNat_sound (f : Nat) : ∀ (n : Nat) (s : String),
    ntvGoNat f n = some s → numberToVietnameseNat n = s := by
  induction f with
  | zero =>
    intro n s h
    rw [ntvGoNat] at h
    rw [numberToVietnameseNat]
    split_ifs at h ⊢ <;> simp_all
  | succ f ih =>
    intro n s h
    rw [ntvGoNat] at h
    rw [numberToVietnameseNat]
    split_ifs at h ⊢ <;> try simp_all
    · -- hundreds with remainder ≥ 10
      cases hh : ntvGoNat f (n % 100) with
      | none => rw [hh] at h; simp at h
      | some t => rw [hh] at h; simp at h; rw [ih _ _ hh, h]
    · -- thousands with remainder 0
      cases hh : ntvGoNat f (n / 1000) with
      | none => rw [hh] at h; simp at h
      | some t => rw [hh] at h; simp at h; rw [ih _ _ hh]; exact h
    · -- thousands with remainder below 100
      cases hh : ntvGoNat f (n / 1000) with
      | none => rw [hh] at h; simp at h
      | some t =>
        cases hr : ntvGoNat f (n % 1000) with
        | none => rw [hh, hr] at h; simp at h
        | some r => rw [hh, hr] at h; simp at h; rw [ih _ _ hh, ih _ _ hr]; exact h
    · -- thousands with remainder at least 100
      cases hh : ntvGoNat f (n / 1000) with
      | none => rw [hh] at h; simp at h
      | some t =>
        cases hr : ntvGoNat f (n % 1000) with
        | none => rw [hh, hr] at h; simp at h
        | some r => rw [hh, hr] at h; simp at h; rw [ih _ _ hh, ih _ _ hr]; exact h

theorem numDigits_pos (n : Nat) : 1 ≤ numDigits n := by
  rw [numDigits]; split_ifs <;> omega

theorem numDigits_le_two (n : Nat) (h : n < 100) : numDigits n ≤ 2 := by
  rw [numDigits]
  split_ifs
  · omega
  · rw [numDigits]; split_ifs <;> omega

theorem numDigits_le_three (n : Nat) (h : n < 1000) : numDigits n ≤ 3 := by
  rw [numDigits]
  split_ifs
  · omega
  · have := numDigits_le_two (n / 10) (by omega); omega

theorem three_le_numDigits (n : Nat) (h : 100 ≤ n) : 3 ≤ numDigits n := by
  rw [numDigits]
  split_ifs
  · omega
  · rw [numDigits]
    split_ifs
    · omega
    · have := numDigits_pos (n / 10 / 10); omega

theorem four_le_numDigits (n : Nat) (h : 1000 ≤ n) : 4 ≤ numDigits n := by
  rw [numDigits]
  split_ifs
  · omega
  · have := three_le_numDigits (n / 10) (by omega); omega

/-- Completeness of the fuel evaluator: fuel `f` with `numDigits n ≤ f + 1`
is enough for the recursion to finish, and it computes the value of the
recursive source function. -/
theorem ntvGoNat_complete (n : Nat) : ∀ (f : Nat), numDigits n ≤ f + 1 →
    ntvGoNat f n = some (numberToVietnameseNat n) := by
  induction n using Nat.strong_induction_on with
  | _ n ih =>
    intro f hf
    rw [ntvGoNat.eq_def, numberToVietnameseNat]
    split_ifs
    any_goals rfl
    · -- hundreds with remainder ≥ 10: needs one unit of fuel
      have h3 : 3 ≤ numDigits n := three_le_numDigits n (by omega)
      cases f with
      | zero => omega
      | succ f =>
        dsimp only
        rw [ih (n % 100) (by omega) f (by have := numDigits_le_two (n % 100) (by omega); omega)]
        rfl
    · -- thousands with remainder 0
      have h4 : 4 ≤ numDigits n := four_le_numDigits n (by omega)
      cases f with
      | zero => omega
      | succ f =>
        dsimp only
        rw [ih (n / 1000) (by omega) f (by have := numDigits_le_three (n / 1000) (by omega); omega)]
        simp
    · -- thousands with remainder below 100
      have h4 : 4 ≤ numDigits n := four_le_numDigits n (by omega)
      cases f with
      | zero => omega
      | succ f =>
        dsimp only
        rw [ih (n / 1000) (by omega) f (by have := numDigits_le_three (n / 1000) (by omega); omega),
            ih (n % 1000) (by omega) f (by have := numDigits_le_three (n % 1000) (by omega); omega)]
        simp_all
    · -- thousands with remainder at least 100
      have h4 : 4 ≤ numDigits n := four_le_numDigits n (by omega)
      cases f with
      | zero => omega
      | succ f =>
        dsimp only
        rw [ih (n / 1000) (by omega) f (by have := numDigits_le_three (n / 1000) (by omega); omega),
            ih (n % 1000) (by omega) f (by have := numDigits_le_three (n % 1000) (by omega); omega)]
        simp_all

theorem ntvNat_0 : numberToVietnameseNat 0 = "không" := ntvGoNat_sound 0 0 _ (by decide)

theorem ntvNat_7 : numberToVietnameseNat 7 = "bảy" := ntvGoNat_sound 0 7 _ (by decide)

theorem ntvNat_15 : numberToVietnameseNat 15 = "mười lăm" := ntvGoNat_sound 0 15 _ (by decide)

theorem ntvNat_21 : numberToVietnameseNat 21 = "hai mươi mốt" := ntvGoNat_sound 0 21 _ (by decide)

theorem ntvNat_105 : numberToVietnameseNat 105 = "một trăm lẻ năm" := ntvGoNat_sound 0 105 _ (by decide)

theorem ntvNat_1000 : numberToVietnameseNat 1000 = "một nghìn" := ntvGoNat_sound 1 1000 _ (by decide)

/-- C1: `number_to_vietnamese` follows the magnitude-based numeral grammar
of the spec: the six spot checks, the irregular " mốt" and " lăm" endings
for ones-digit 1 and 5 in 20–99 (and the plain digit word otherwise, and
nothing for ones-digit 0), the " lẻ " filler for a non-zero hundreds
remainder below 10, the " không trăm " filler for a non-zero thousands
remainder below 100, the space-joined digit-by-digit reading for
n ≥ 1,000,000, and the "âm " prefix for negative integers. -/
theorem C1_number_to_vietnamese_grammar :
    number_to_vietnamese 0 = "không" ∧
    number_to_vietnamese 15 = "mười lăm" ∧
    number_to_vietnamese 21 = "hai mươi mốt" ∧
    number_to_vietnamese 105 = "một trăm lẻ năm" ∧
    number_to_vietnamese 1000 = "một nghìn" ∧
    number_to_vietnamese (-7) = "âm bảy" ∧
    (∀ n : Nat, 20 ≤ n → n < 100 → n % 10 = 0 →
      numberToVietnameseNat n = nwGet (toString (n / 10)) ++ " mươi") ∧
    (∀ n : Nat, 20 ≤ n → n < 100 → n % 10 = 1 →
      numberToVietnameseNat n = nwGet (toString (n / 10)) ++ " mươi" ++ " mốt") ∧
    (∀ n : Nat, 20 ≤ n → n < 100 → n % 10 = 5 →
      numberToVietnameseNat n = nwGet (toString (n / 10)) ++ " mươi" ++ " lăm") ∧
    (∀ n : Nat, 20 ≤ n → n < 100 → 2 ≤ n % 10 → ¬n % 10 = 5 →
      numberToVietnameseNat n = nwGet (toString (n / 10)) ++ " mươi" ++ " " ++ nwGet (toString (n % 10))) ∧
    (∀ n : Nat, 100 ≤ n → n < 1000 → 0 < n % 100 → n % 100 < 10 →
      numberToVietnameseNat n = nwGet (toString (n / 100)) ++ " trăm" ++ " lẻ " ++ nwGet (toString (n % 100))) ∧
    (∀ n : Nat, 1000 ≤ n → n < 1000000 → 0 < n % 1000 → n % 1000 < 100 →
      numberToVietnameseNat n =
        numberToVietnameseNat (n / 1000) ++ " nghìn" ++ " không trăm " ++ numberToVietnameseNat (n % 1000)) ∧
    (∀ n : Nat, 1000000 ≤ n →
      numberToVietnameseNat n =
        String.intercalate " " ((Nat.toDigits 10 n).map (fun d => nwGet (String.mk [d])))) ∧
    (∀ i : Int, i < 0 → number_to_vietnamese i = "âm " ++ number_to_vietnamese (-i)) := by
  refine ⟨?_, ?_, ?_, ?_, ?_, ?_, ?_, ?_, ?_, ?_, ?_, ?_, ?_, ?_⟩
  · rw [number_to_vietnamese, if_neg (by omega)]; exact ntvNat_0
  · rw [number_to_vietnamese, if_neg (by omega)]; exact ntvNat_15
  · rw [number_to_vietnamese, if_neg (by omega)]; exact ntvNat_21
  · rw [number_to_vietnamese, if_neg (by omega)]; exact ntvNat_105
  · rw [number_to_vietnamese, if_neg (by omega)]; exact ntvNat_1000
  · rw [number_to_vietnamese, if_pos (by omega)]
    show "âm " ++ numberToVietnameseNat 7 = _
    rw [ntvNat_7]
    rfl
  · intro n h1 h2 h3
    rw [numberToVietnameseNat,
        if_neg (by omega), if_neg (by omega), if_neg (by omega), if_pos h2, if_pos h3]
  · intro n h1 h2 h3
    rw [numberToVietnameseNat,
        if_neg (by omega), if_neg (by omega), if_neg (by omega), if_pos h2,
        if_neg (by omega), if_pos h3]
  · intro n h1 h2 h3
    rw [numberToVietnameseNat,
        if_neg (by omega), if_neg (by omega), if_neg (by omega), if_pos h2,
        if_neg (by omega), if_neg (by omega), if_pos h3]
  · intro n h1 h2 h3 h4
    rw [numberToVietnameseNat,
        if_neg (by omega), if_neg (by omega), if_neg (by omega), if_pos h2,
        if_neg (by omega), if_neg (by omega), if_neg (by omega)]
  · intro n h1 h2 h3 h4
    rw [numberToVietnameseNat,
        if_neg (by omega), if_neg (by omega), if_neg (by omega), if_neg (by omega), if_pos h2,
        if_neg (by omega), if_pos h4]
  · intro n h1 h2 h3 h4
    rw [numberToVietnameseNat,
        if_neg (by omega), if_neg (by omega), if_neg (by omega), if_neg (by omega),
        if_neg (by omega), if_pos h2, if_neg (by omega), if_pos h4]
  · intro n h1
    rw [numberToVietnameseNat,
        if_neg (by omega), if_neg (by omega), if_neg (by omega), if_neg (by omega),
        if_neg (by omega), if_neg (by omega)]
  · intro i hi
    rw [number_to_vietnamese, if_pos hi, number_to_vietnamese, if_neg (by omega)]

/-- Witness for C1: each quantified clause applied at a concrete input. -/
theorem C1_number_to_vietnamese_grammar_witness :
    numberToVietnameseNat 30 = nwGet (toString (30 / 10)) ++ " mươi" ∧
    numberToVietnameseNat 31 = nwGet (toString (31 / 10)) ++ " mươi" ++ " mốt" ∧
    numberToVietnameseNat 45 = nwGet (toString (45 / 10)) ++ " mươi" ++ " lăm" ∧
    numberToVietnameseNat 47 = nwGet (toString (47 / 10)) ++ " mươi" ++ " " ++ nwGet (toString (47 % 10)) ∧
    numberToVietnameseNat 203 = nwGet (toString (203 / 100)) ++ " trăm" ++ " lẻ " ++ nwGet (toString (203 % 100)) ∧
    numberToVietnameseNat 2037 =
      numberToVietnameseNat (2037 / 1000) ++ " nghìn" ++ " không trăm " ++ numberToVietnameseNat (2037 % 1000) ∧
    numberToVietnameseNat 1234567 =
      String.intercalate " " ((Nat.toDigits 10 1234567).map (fun d => nwGet (String.mk [d]))) ∧
    number_to_vietnamese (-7) = "âm " ++ number_to_vietnamese 7 := by
  obtain ⟨c1, c2, c3, c4, c5, c6, c7, c8, c9, c10, c11, c12, c13, c14⟩ :=
    C1_number_to_vietnamese_grammar
  refine ⟨c7 30 (by omega) (by omega) (by omega),
          c8 31 (by omega) (by omega) (by omega),
          c9 45 (by omega) (by omega) (by omega),
          c10 47 (by omega) (by omega) (by omega) (by omega),
          c11 203 (by omega) (by omega) (by omega) (by omega),
          c12 2037 (by omega) (by omega) (by omega) (by omega),
          c13 1234567 (by omega),
          c14 (-7) (by omega)⟩

/-- C8: `number_to_vietnamese` is total (it is a function, defined for all
integers), and the fuel-bounded evaluator — in which every recursive call
of the source consumes one unit of fuel — already succeeds when given the
number of decimal digits of the input as its recursion-depth budget, and
then agrees with the function. -/
theorem C8_ntv_depth_bounded_by_digits (i : Int) :
    ntvFuel (numDigits i.natAbs) i = some (number_to_vietnamese i) := by
  rw [ntvFuel.eq_def, number_to_vietnamese]
  split_ifs with h
  · have h1 : 1 ≤ numDigits i.natAbs := numDigits_pos _
    obtain ⟨f, hf⟩ : ∃ f, numDigits i.natAbs = f + 1 := ⟨numDigits i.natAbs - 1, by omega⟩
    rw [hf]
    dsimp only
    have he : (-i).toNat = i.natAbs := by omega
    rw [he, ntvGoNat_complete i.natAbs f (by omega)]
    rfl
  · have he : i.toNat = i.natAbs := by omega
    rw [he, ntvGoNat_complete i.natAbs _ (by omega)]

theorem numDigits_le_succ (n : Nat) : numDigits n ≤ n + 1 := by
  induction n using Nat.strong_induction_on with
  | _ n ih =>
    rw [numDigits]
    split_ifs with h
    · omega
    · have := ih (n / 10) (by omega); omega

/-- Evaluation form of `number_to_vietnamese` through the fuel evaluator
with a generous budget; unlike the recursive function itself, the right
hand side is computable by the kernel. -/
theorem ntv_eval_fuel (i : Int) :
    number_to_vietnamese i = (ntvFuel (i.natAbs + 1) i).getD "" := by
  rw [ntvFuel.eq_def, number_to_vietnamese]
  split_ifs with h
  · dsimp only
    have he : (-i).toNat = i.natAbs := by omega
    rw [he, ntvGoNat_complete i.natAbs i.natAbs (by have := numDigits_le_succ i.natAbs; omega)]
    rfl
  · have he : i.toNat = i.natAbs := by omega
    rw [he, ntvGoNat_complete i.natAbs _ (by have := numDigits_le_succ i.natAbs; omega)]
    rfl

theorem expand_eval_aux (k : Nat) : ∀ (t : List Char), t.length ≤ k →
    (∀ pw, expandGo pw t = expandGoC pw t) ∧ (∀ acc, expandRun acc t = expandRunC acc t) := by
  induction k with
  | zero =>
    intro t ht
    have h0 : t = [] := by cases t <;> simp_all
    subst h0
    refine ⟨fun pw => rfl, fun acc => ?_⟩
    rw [expandRun, expandRunC, ntv_eval_fuel]
  | succ k ih =>
    intro t ht
    cases t with
    | nil =>
      refine ⟨fun pw => rfl, fun acc => ?_⟩
      rw [expandRun, expandRunC, ntv_eval_fuel]
    | cons c cs =>
      have hcs := ih cs (by simp at ht; omega)
      refine ⟨fun pw => ?_, fun acc => ?_⟩
      · rw [expandGo, expandGoC]
        split_ifs with h
        · exact hcs.2 [c]
        · rw [hcs.1 (isWordChar c)]
      · rw [expandRun, expandRunC]
        split_ifs with h1 h2
        · exact hcs.2 (c :: acc)
        · rw [hcs.1 true]
        · rw [hcs.1 false, ntv_eval_fuel]

/-- `expandGo` agrees with its kernel-computable clone. -/
theorem expandGo_eq_fuel (pw : Bool) (t : List Char) : expandGo pw t = expandGoC pw t :=
  (expand_eval_aux t.length t le_rfl).1 pw

theorem validateList_false_iff (t : List Char) :
    validateList t = false ↔
      ∃ c ∈ t, isUnicodeLetter c = true ∧ pyIsAscii c = false ∧
        VIETNAMESE_CHARS.contains c = false := by
  induction t with
  | nil => simp [validateList]
  | cons c cs ih =>
    rw [validateList]
    split_ifs with h
    · simp only [Bool.and_eq_true, Bool.not_eq_true'] at h
      simp only [true_iff]
      exact ⟨c, List.mem_cons_self c cs, h.1.1, h.2, h.1.2⟩
    · simp only [Bool.and_eq_true, Bool.not_eq_true'] at h
      rw [ih]
      constructor
      · rintro ⟨x, hx, hp⟩; exact ⟨x, List.mem_cons_of_mem c hx, hp⟩
      · rintro ⟨x, hx, hp⟩
        rcases List.mem_cons.mp hx with rfl | hx
        · exact absurd ⟨⟨hp.1, hp.2.2⟩, hp.2.1⟩ h
        · exact ⟨x, hx, hp⟩

/-- C7: `validate_vietnamese_text` returns false exactly when some
character of the text is alphabetic (Unicode letter), not ASCII and not in
the Vietnamese letter set; in particular it returns true on the empty
string.  It is a pure total Lean function, so it has no side effects and no
exceptions. -/
theorem C7_validate_characterization :
    (∀ s : String, validate_vietnamese_text s = false ↔
      ∃ c ∈ s.data, isUnicodeLetter c = true ∧ pyIsAscii c = false ∧
        VIETNAMESE_CHARS.contains c = false) ∧
    validate_vietnamese_text "" = true :=
  ⟨fun s => validateList_false_iff s.data, rfl⟩

/-- C3: the character-filter step retains exactly the characters that are
ASCII, or in the Vietnamese letter set, or in the punctuation allow-list,
or in a Unicode letter category, preserving their order; every other
character is dropped, not replaced — illustrated on an emoji, a non-ASCII
control character and a currency symbol. -/
theorem C3_filter_retains_exactly :
    (∀ t : List Char, filterStep t = t.filter (fun c =>
      pyIsAscii c || VIETNAMESE_CHARS.contains c || filterPunct.contains c ||
      isUnicodeLetter c)) ∧
    filterStep "a😀\u0090€b".data = "ab".data := by
  constructor
  · intro t
    induction t with
    | nil => rfl
    | cons c cs ih =>
      rw [filterStep, List.filter_cons]
      by_cases h1 : keepPrimary c
      · rw [if_pos h1, ih, if_pos]
        simp only [keepPrimary, Bool.or_eq_true] at h1
        simp only [Bool.or_eq_true]
        tauto
      · rw [if_neg h1]
        by_cases h2 : isUnicodeLetter c
        · rw [if_pos h2, ih, if_pos]
          simp only [Bool.or_eq_true]
          tauto
        · rw [if_neg h2, ih, if_neg]
          simp only [keepPrimary, Bool.or_eq_true] at h1
          simp only [Bool.or_eq_true]
          tauto
  · decide

/-- C9: `segment_words` is fail-soft.  When the segmentation capability is
absent (the import-time flag is false) it is the identity and logs nothing,
for every tokenizer and every input; when the capability is present but the
external call raises, the exception is caught, one warning naming the
failure is logged, and the input is returned unchanged. -/
theorem C9_segment_words_fail_soft :
    (∀ (tok : String → Except String String) (x : String),
      segment_words false tok x = (x, [])) ∧
    (∀ (tok : String → Except String String) (x e : String), tok x = .error e →
      segment_words true tok x = (x, ["Word segmentation failed: " ++ e])) := by
  refine ⟨fun tok x => rfl, fun tok x e h => ?_⟩
  rw [segment_words, if_pos rfl, h]

/-- Witness for C9: a tokenizer that always raises, on a concrete input. -/
theorem C9_segment_words_fail_soft_witness :
    segment_words false (fun _ => .ok "y") "xin chào" = ("xin chào", []) ∧
    segment_words true (fun _ => .error "boom") "xin chào" =
      ("xin chào", ["Word segmentation failed: boom"]) :=
  ⟨C9_segment_words_fail_soft.1 (fun _ => .ok "y") "xin chào",
   C9_segment_words_fail_soft.2 (fun _ => .error "boom") "xin chào" "boom" rfl⟩

/-- Every regex `\d` digit is a regex `\w` word character. -/
theorem digit_isWordChar (c : Char) (h : isReDigit c = true) : isWordChar c = true := by
  have hsub : ndRanges.all
      (fun r => wordRanges.any (fun w => w.1 ≤ r.1 && r.2 ≤ w.2)) = true := by decide
  rw [isReDigit, inRanges, List.any_eq_true] at h
  obtain ⟨r, hr, hc⟩ := h
  rw [List.all_eq_true] at hsub
  have hw := hsub r hr
  rw [List.any_eq_true] at hw
  obtain ⟨w, hww, hb⟩ := hw
  rw [isWordChar, inRanges, List.any_eq_true]
  refine ⟨w, hww, ?_⟩
  simp only [Bool.and_eq_true, decide_eq_true_eq] at hc hb ⊢
  omega

theorem expandRun_digits (t : List Char) : ∀ acc, t.all isReDigit = true →
    expandRun acc t =
      (number_to_vietnamese (Int.ofNat (digitsVal (acc.reverse ++ t)))).data := by
  induction t with
  | nil => intro acc _; rw [expandRun]; simp
  | cons c cs ih =>
    intro acc h
    simp only [List.all_cons, Bool.and_eq_true] at h
    rw [expandRun, if_pos h.1, ih (c :: acc) h.2]
    simp

theorem expandRun_append (run : List Char) : ∀ acc u, run.all isReDigit = true →
    expandRun acc (run ++ u) = expandRun (run.reverse ++ acc) u := by
  induction run with
  | nil => intro acc u _; simp
  | cons c cs ih =>
    intro acc u h
    simp only [List.all_cons, Bool.and_eq_true] at h
    rw [List.cons_append, expandRun, if_pos h.1, ih (c :: acc) u h.2]
    simp

theorem expandGo_prevword_digits : ∀ (run : List Char), run.all isReDigit = true →
    ∀ u, expandGo true (run ++ u) = run ++ expandGo true u := by
  intro run
  induction run with
  | nil => intro _ u; rfl
  | cons c cs ih =>
    intro h u
    simp only [List.all_cons, Bool.and_eq_true] at h
    rw [List.cons_append, expandGo, if_neg (by simp), digit_isWordChar c h.1, ih h.2 u]
    rfl

theorem expandGo_standalone (run : List Char) (hne : run ≠ [])
    (hd : run.all isReDigit = true) :
    expandGo false run = (number_to_vietnamese (Int.ofNat (digitsVal run))).data := by
  cases run with
  | nil => exact absurd rfl hne
  | cons c cs =>
    simp only [List.all_cons, Bool.and_eq_true] at hd
    rw [expandGo, if_pos (by simp [hd.1]), expandRun_digits cs [c] hd.2]
    simp

theorem expandGo_run_before_wordchar (run : List Char) (hne : run ≠ [])
    (hd : run.all isReDigit = true) (c : Char) (hc : isReDigit c = false)
    (hw : isWordChar c = true) (cs : List Char) :
    expandGo false (run ++ c :: cs) = run ++ c :: expandGo true cs := by
  cases run with
  | nil => exact absurd rfl hne
  | cons r rs =>
    simp only [List.all_cons, Bool.and_eq_true] at hd
    rw [List.cons_append, expandGo, if_pos (by simp [hd.1]),
        expandRun_append rs [r] (c :: cs) hd.2, expandRun, if_neg (by simp [hc]),
        if_pos hw]
    simp

theorem expandGo_run_before_nonword (run : List Char) (hne : run ≠ [])
    (hd : run.all isReDigit = true) (c : Char) (hw : isWordChar c = false)
    (cs : List Char) :
    expandGo false (run ++ c :: cs) =
      (number_to_vietnamese (Int.ofNat (digitsVal run))).data ++ c :: expandGo false cs := by
  have hc : isReDigit c = false := by
    by_contra hcc
    rw [digit_isWordChar c (by simpa using hcc)] at hw
    exact absurd hw (by simp)
  cases run with
  | nil => exact absurd rfl hne
  | cons r rs =>
    simp only [List.all_cons, Bool.and_eq_true] at hd
    rw [List.cons_append, expandGo, if_pos (by simp [hd.1]),
        expandRun_append rs [r] (c :: cs) hd.2, expandRun, if_neg (by simp [hc]),
        if_neg (by simp [hw])]
    simp

/-- C6: `expand_numbers` rewrites exactly the maximal digit runs bounded by
word boundaries: a standalone run (start-of-scan on the left, end of text
or a non-word character on the right) is replaced by its Vietnamese number
phrase; a run whose left neighbour is a word character, or whose right
neighbour is a word character (such as a letter), is left unchanged — in
particular `expand_numbers "ISO9001" = "ISO9001"`. -/
theorem C6_expand_numbers_boundaries :
    (∀ run : List Char, run ≠ [] → run.all isReDigit = true →
      expandGo false run = (number_to_vietnamese (Int.ofNat (digitsVal run))).data) ∧
    (∀ run : List Char, run ≠ [] → run.all isReDigit = true →
      ∀ (c : Char), isWordChar c = false → ∀ cs,
        expandGo false (run ++ c :: cs) =
          (number_to_vietnamese (Int.ofNat (digitsVal run))).data ++ c :: expandGo false cs) ∧
    (∀ run : List Char, run.all isReDigit = true → ∀ u,
      expandGo true (run ++ u) = run ++ expandGo true u) ∧
    (∀ run : List Char, run ≠ [] → run.all isReDigit = true →
      ∀ (c : Char), isReDigit c = false → isWordChar c = true → ∀ cs,
        expandGo false (run ++ c :: cs) = run ++ c :: expandGo true cs) ∧
    expand_numbers "ISO9001" = "ISO9001" := by
  refine ⟨expandGo_standalone,
          fun run hne hd c hw cs => expandGo_run_before_nonword run hne hd c hw cs,
          fun run hd u => expandGo_prevword_digits run hd u,
          fun run hne hd c hc hw cs => expandGo_run_before_wordchar run hne hd c hc hw cs,
          ?_⟩
  show String.mk (expandGo false "ISO9001".data) = _
  rw [expandGo_eq_fuel]
  decide

/-- Witness for C6: the clauses applied at concrete inputs — the standalone
run "15", the run "9001" preceded by a letter, and the runs "15"/"9001"
followed by a space and by a letter respectively. -/
theorem C6_expand_numbers_boundaries_witness :
    expandGo false "15".data = (number_to_vietnamese (Int.ofNat (digitsVal "15".data))).data ∧
    expandGo false ("15".data ++ ' ' :: "x".data) =
      (number_to_vietnamese (Int.ofNat (digitsVal "15".data))).data ++ ' ' :: expandGo false "x".data ∧
    expandGo true ("9001".data ++ " x".data) = "9001".data ++ expandGo true " x".data ∧
    expandGo false ("9001".data ++ 'x' :: []) = "9001".data ++ 'x' :: expandGo true [] := by
  obtain ⟨c1, c2, c3, c4, _⟩ := C6_expand_numbers_boundaries
  exact ⟨c1 "15".data (by decide) (by decide),
         c2 "15".data (by decide) (by decide) ' ' (by decide) "x".data,
         c3 "9001".data (by decide) " x".data,
         c4 "9001".data (by decide) (by decide) 'x' (by decide) (by decide) []⟩

/-- C5: `preprocess_for_tts` composes normalization, number expansion,
punctuation spacing (each of `. , ! ? ; :` wrapped in single spaces by
`punctSpace`, then whitespace re-collapsed by `collapseWs`) and
first-letter capitalization, in that order; the end-to-end example
evaluates to "Tôi có mười lăm con mèo ."; and capitalization upper-cases
exactly the first character and only when it is lowercase, leaving all
other characters untouched. -/
theorem C5_preprocess_pipeline :
    (∀ s : String, preprocess_for_tts s =
      String.mk (capitalizeFirst (collapseWs (punctSpace
        (expandGo false (vietnameseNormalizeList s.data true)))))) ∧
    preprocess_for_tts "tôi có 15 con mèo." = "Tôi có mười lăm con mèo ." ∧
    (∀ (c : Char) (cs : List Char), pyIsLower c = true →
      capitalizeFirst (c :: cs) = pyUpperChar c ++ cs) ∧
    (∀ (c : Char) (cs : List Char), pyIsLower c = false →
      capitalizeFirst (c :: cs) = c :: cs) ∧
    capitalizeFirst [] = [] := by
  refine ⟨fun s => rfl, ?_, fun c cs h => by rw [capitalizeFirst, if_pos h],
          fun c cs h => by rw [capitalizeFirst, if_neg (by simp [h])], rfl⟩
  show String.mk (capitalizeFirst (collapseWs (punctSpace
    (expandGo false (vietnameseNormalizeList "tôi có 15 con mèo.".data true))))) = _
  rw [expandGo_eq_fuel]
  decide

/-- Witness for C5: the capitalization clauses applied at concrete
characters. -/
theorem C5_preprocess_pipeline_witness :
    capitalizeFirst ('t' :: "ôi".data) = pyUpperChar 't' ++ "ôi".data ∧
    capitalizeFirst ('T' :: "ôi".data) = 'T' :: "ôi".data :=
  ⟨C5_preprocess_pipeline.2.2.1 't' "ôi".data (by decide),
   C5_preprocess_pipeline.2.2.2.1 'T' "ôi".data (by decide)⟩

section ListToolkit

variable {p : Char → Bool}

theorem dropWhile_length_le : ∀ t : List Char, (t.dropWhile p).length ≤ t.length := by
  intro t
  induction t with
  | nil => simp
  | cons c cs ih =>
    rw [List.dropWhile_cons]
    split_ifs
    · exact Nat.le_trans ih (by simp)
    · simp

theorem dropWhile_of_all_neg : ∀ t : List Char, t.all (fun c => !p c) = true →
    t.dropWhile p = t := by
  intro t h
  cases t with
  | nil => rfl
  | cons c cs =>
    simp only [List.all_cons, Bool.and_eq_true, Bool.not_eq_true'] at h
    rw [List.dropWhile_cons, if_neg (by simp [h.1])]

theorem dropWhile_fix_head (x : Char) (t : List Char)
    (h : (x :: t).dropWhile p = x :: t) : p x = false := by
  by_contra hx
  rw [List.dropWhile_cons, if_pos (by simpa using hx)] at h
  have hl := dropWhile_length_le (p := p) t
  rw [h] at hl
  simp at hl

theorem dropWhile_fix_append : ∀ xs ys : List Char, xs ≠ [] → xs.dropWhile p = xs →
    (xs ++ ys).dropWhile p = xs ++ ys := by
  intro xs ys hne hfix
  cases xs with
  | nil => exact absurd rfl hne
  | cons x t =>
    have hx := dropWhile_fix_head x t hfix
    rw [List.cons_append, List.dropWhile_cons, if_neg (by simp [hx])]

theorem takeWhile_append_all : ∀ l r : List Char, l.all p = true →
    (l ++ r).takeWhile p = l ++ r.takeWhile p := by
  intro l r h
  induction l with
  | nil => simp
  | cons c cs ih =>
    simp only [List.all_cons, Bool.and_eq_true] at h
    rw [List.cons_append, List.takeWhile_cons, if_pos h.1, ih h.2]
    rfl

theorem dropWhile_append_all : ∀ l r : List Char, l.all p = true →
    (l ++ r).dropWhile p = r.dropWhile p := by
  intro l r h
  induction l with
  | nil => simp
  | cons c cs ih =>
    simp only [List.all_cons, Bool.and_eq_true] at h
    rw [List.cons_append, List.dropWhile_cons, if_pos h.1, ih h.2]

theorem takeWhile_of_all : ∀ l : List Char, l.all p = true → l.takeWhile p = l := by
  intro l h
  induction l with
  | nil => rfl
  | cons c cs ih =>
    simp only [List.all_cons, Bool.and_eq_true] at h
    rw [List.takeWhile_cons, if_pos h.1, ih h.2]

theorem dropWhile_all_nil : ∀ l : List Char, l.all p = true → l.dropWhile p = [] := by
  intro l h
  induction l with
  | nil => rfl
  | cons c cs ih =>
    simp only [List.all_cons, Bool.and_eq_true] at h
    rw [List.dropWhile_cons, if_pos h.1, ih h.2]

end ListToolkit

theorem pySplit_ws_cons (c : Char) (h : pyIsSpace c = true) (t : List Char) :
    pySplit (c :: t) = pySplit t := by
  simp [pySplit, pySplitGo, h]

theorem pySplitGo_acc : ∀ (t cur : List Char), cur ≠ [] →
    pySplitGo cur t = (cur.reverse ++ t.takeWhile (fun c => !pyIsSpace c)) ::
      pySplit (t.dropWhile (fun c => !pyIsSpace c)) := by
  intro t
  induction t with
  | nil => intro cur h; simp [pySplitGo, h, pySplit]
  | cons c cs ih =>
    intro cur h
    rw [pySplitGo]
    by_cases hc : pyIsSpace c = true
    · rw [if_pos hc, if_neg h, List.takeWhile_cons, List.dropWhile_cons,
          if_neg (by simp [hc]), if_neg (by simp [hc])]
      rw [pySplit_ws_cons c hc]
      simp [pySplit]
    · rw [if_neg hc, ih (c :: cur) (by simp), List.takeWhile_cons, List.dropWhile_cons,
          if_pos (by simp_all), if_pos (by simp_all)]
      simp

theorem pySplit_cons_nonws (c : Char) (h : pyIsSpace c = false) (t : List Char) :
    pySplit (c :: t) = (c :: t.takeWhile (fun d => !pyIsSpace d)) ::
      pySplit (t.dropWhile (fun d => !pyIsSpace d)) := by
  rw [pySplit, pySplitGo, if_neg (by simp [h]), pySplitGo_acc t [c] (by simp)]
  rfl

/-- Every field produced by `pySplit` is non-empty and whitespace-free. -/
theorem pySplit_tokens : ∀ (k : Nat) (t : List Char), t.length ≤ k →
    ∀ tk ∈ pySplit t, tk ≠ [] ∧ tk.all (fun c => !pyIsSpace c) = true := by
  intro k
  induction k with
  | zero =>
    intro t ht tk htk
    have : t = [] := by cases t <;> simp_all
    subst this
    simp [pySplit, pySplitGo] at htk
  | succ k ih =>
    intro t ht tk htk
    cases t with
    | nil => simp [pySplit, pySplitGo] at htk
    | cons c cs =>
      simp only [List.length_cons] at ht
      by_cases hc : pyIsSpace c = true
      · rw [pySplit_ws_cons c hc] at htk
        exact ih cs (by omega) tk htk
      · rw [pySplit_cons_nonws c (by simpa using hc)] at htk
        rcases List.mem_cons.mp htk with rfl | htk
        · refine ⟨by simp, ?_⟩
          simp only [List.all_cons, Bool.and_eq_true]
          refine ⟨by simp [hc], ?_⟩
          have : ∀ l : List Char, (l.takeWhile (fun d => !pyIsSpace d)).all (fun d => !pyIsSpace d) = true := by
            intro l
            induction l with
            | nil => rfl
            | cons a as iha =>
              rw [List.takeWhile_cons]
              split_ifs with hcond
              · simp [hcond, iha]
              · rfl
          exact this cs
        · have hlen := dropWhile_length_le (p := fun d => !pyIsSpace d) cs
          exact ih _ (by omega) tk htk

/-- Joining with `' '` of a cons-cons list. -/
theorem joinSp_cons_cons (tk tk2 : List Char) (tks : List (List Char)) :
    joinSp (tk :: tk2 :: tks) = tk ++ ' ' :: joinSp (tk2 :: tks) := rfl

theorem joinSp_ne_nil (tk : List Char) (tks : List (List Char)) (h : tk ≠ []) :
    joinSp (tk :: tks) ≠ [] := by
  cases tks with
  | nil => simpa [joinSp] using h
  | cons tk2 rest => rw [joinSp_cons_cons]; simp [h]

/-- Characters of a join are the separator space or characters of fields. -/
theorem joinSp_mem : ∀ (toks : List (List Char)) (c : Char), c ∈ joinSp toks →
    c = ' ' ∨ ∃ tk ∈ toks, c ∈ tk := by
  intro toks
  induction toks with
  | nil => intro c hc; simp [joinSp] at hc
  | cons tk tks ih =>
    intro c hc
    cases tks with
    | nil =>
      right
      exact ⟨tk, by simp, by simpa [joinSp] using hc⟩
    | cons tk2 rest =>
      rw [joinSp_cons_cons] at hc
      rcases List.mem_append.mp hc with h1 | h2
      · exact Or.inr ⟨tk, by simp, h1⟩
      · rcases List.mem_cons.mp h2 with rfl | h3
        · exact Or.inl rfl
        · rcases ih c h3 with h4 | ⟨tk3, h5, h6⟩
          · exact Or.inl h4
          · exact Or.inr ⟨tk3, List.mem_cons_of_mem _ h5, h6⟩

theorem noTwoWs_tail (c : Char) (cs : List Char) (h : noTwoWs (c :: cs) = true) :
    noTwoWs cs = true := by
  cases cs with
  | nil => rfl
  | cons d t =>
    rw [noTwoWs] at h
    simp only [Bool.and_eq_true] at h
    exact h.2

theorem noTwoWs_append_nonws : ∀ (xs ys : List Char),
    xs.all (fun c => !pyIsSpace c) = true → noTwoWs ys = true →
    noTwoWs (xs ++ ys) = true := by
  intro xs
  induction xs with
  | nil => intro ys _ h; simpa using h
  | cons x t ih =>
    intro ys hall hys
    simp only [List.all_cons, Bool.and_eq_true, Bool.not_eq_true'] at hall
    rw [List.cons_append]
    cases he : t ++ ys with
    | nil => rfl
    | cons d u =>
      rw [noTwoWs, ← he, ih ys (by simp [hall.2]) hys, hall.1]
      simp

theorem noTwoWs_joinSp : ∀ toks : List (List Char),
    (∀ tk ∈ toks, tk ≠ [] ∧ tk.all (fun c => !pyIsSpace c) = true) →
    noTwoWs (joinSp toks) = true := by
  intro toks
  induction toks with
  | nil => intro _; rfl
  | cons tk tks ih =>
    intro h
    have htk := h tk (by simp)
    cases tks with
    | nil =>
      show noTwoWs (joinSp [tk]) = true
      have : joinSp [tk] = tk ++ [] := by simp [joinSp]
      rw [this]
      exact noTwoWs_append_nonws tk [] htk.2 rfl
    | cons tk2 rest =>
      rw [joinSp_cons_cons]
      refine noTwoWs_append_nonws tk _ htk.2 ?_
      have htk2 := h tk2 (by simp)
      obtain ⟨a, as, ha⟩ : ∃ a as, tk2 = a :: as := by
        cases tk2 with
        | nil => exact absurd rfl htk2.1
        | cons a as => exact ⟨a, as, rfl⟩
      obtain ⟨X, hX⟩ : ∃ X, joinSp (tk2 :: rest) = a :: X := by
        cases rest with
        | nil => exact ⟨as, by simp [joinSp, ha]⟩
        | cons r rs => exact ⟨as ++ ' ' :: joinSp (r :: rs), by rw [joinSp_cons_cons, ha]; rfl⟩
      rw [hX, noTwoWs]
      have hihx : noTwoWs (joinSp (tk2 :: rest)) = true :=
        ih (fun x hx => h x (List.mem_cons_of_mem _ hx))
      rw [hX] at hihx
      have ha2 : pyIsSpace a = false := by
        have := htk2.2
        rw [ha] at this
        simp only [List.all_cons, Bool.and_eq_true, Bool.not_eq_true'] at this
        exact this.1
      simp [ha2, hihx]

theorem joinSp_dropWhile_front : ∀ toks : List (List Char),
    (∀ tk ∈ toks, tk ≠ [] ∧ tk.all (fun c => !pyIsSpace c) = true) →
    (joinSp toks).dropWhile pyIsSpace = joinSp toks := by
  intro toks h
  cases toks with
  | nil => rfl
  | cons tk tks =>
    have htk := h tk (by simp)
    obtain ⟨Y, hY⟩ : ∃ Y, joinSp (tk :: tks) = tk ++ Y := by
      cases tks with
      | nil => exact ⟨[], by simp [joinSp]⟩
      | cons a b => exact ⟨' ' :: joinSp (a :: b), rfl⟩
    rw [hY]
    exact dropWhile_fix_append tk _ htk.1 (dropWhile_of_all_neg tk htk.2)

theorem joinSp_dropWhile_back : ∀ toks : List (List Char),
    (∀ tk ∈ toks, tk ≠ [] ∧ tk.all (fun c => !pyIsSpace c) = true) →
    (joinSp toks).reverse.dropWhile pyIsSpace = (joinSp toks).reverse := by
  intro toks
  induction toks with
  | nil => intro _; rfl
  | cons tk tks ih =>
    intro h
    have htk := h tk (by simp)
    cases tks with
    | nil =>
      show (joinSp [tk]).reverse.dropWhile pyIsSpace = (joinSp [tk]).reverse
      have : joinSp [tk] = tk := by simp [joinSp]
      rw [this]
      exact dropWhile_of_all_neg tk.reverse (by simpa using htk.2)
    | cons tk2 rest =>
      rw [joinSp_cons_cons, List.reverse_append]
      have hr : (' ' :: joinSp (tk2 :: rest)).reverse =
          (joinSp (tk2 :: rest)).reverse ++ [' '] := by simp
      rw [hr, List.append_assoc]
      have hne : (joinSp (tk2 :: rest)).reverse ≠ [] := by
        have := joinSp_ne_nil tk2 rest (h tk2 (by simp)).1
        simpa using this
      exact dropWhile_fix_append _ _ hne (ih (fun x hx => h x (List.mem_cons_of_mem _ hx)))

theorem collapseWs_props (t : List Char) :
    noTwoWs (collapseWs t) = true ∧
    (∀ c ∈ collapseWs t, pyIsSpace c = true → c = ' ') ∧
    (collapseWs t).dropWhile pyIsSpace = collapseWs t ∧
    (collapseWs t).reverse.dropWhile pyIsSpace = (collapseWs t).reverse := by
  have htoks := pySplit_tokens t.length t le_rfl
  refine ⟨noTwoWs_joinSp _ htoks, ?_, joinSp_dropWhile_front _ htoks,
          joinSp_dropWhile_back _ htoks⟩
  intro c hc hws
  rcases joinSp_mem _ c hc with rfl | ⟨tk, htk, hctk⟩
  · rfl
  · have := (htoks tk htk).2
    rw [List.all_eq_true] at this
    have hcx := this c hctk
    simp only [Bool.not_eq_true'] at hcx
    rw [hws] at hcx
    cases hcx

theorem pyUpperChar_ne_nil (c : Char) : pyUpperChar c ≠ [] := by
  rw [pyUpperChar]
  cases hf : upperTable.find? (fun e => e.1 == c.toNat) with
  | none => simp
  | some e =>
    have hm : e ∈ upperTable := List.mem_of_find?_eq_some hf
    have hfact : upperTable.all (fun e => !e.2.isEmpty) = true := by decide
    rw [List.all_eq_true] at hfact
    have he := hfact e hm
    simp only [Bool.not_eq_true', List.isEmpty_eq_false_iff_exists_mem] at he
    simp only [ne_eq, List.map_eq_nil_iff]
    intro hnil
    rw [hnil] at he
    simp at he

theorem pyUpperChar_nonws (c : Char) (hc : pyIsSpace c = false) :
    (pyUpperChar c).all (fun d => !pyIsSpace d) = true := by
  rw [pyUpperChar]
  cases hf : upperTable.find? (fun e => e.1 == c.toNat) with
  | none => simp [hc]
  | some e =>
    have hm : e ∈ upperTable := List.mem_of_find?_eq_some hf
    have hfact : upperTable.all
        (fun e => e.2.all (fun n => !wsCodes.contains (Char.ofNat n).toNat)) = true := by decide
    rw [List.all_eq_true] at hfact
    have he := hfact e hm
    rw [List.all_eq_true] at he ⊢
    intro d hd
    rcases List.mem_map.mp hd with ⟨n, hn, rfl⟩
    have := he n hn
    simpa [pyIsSpace] using this

theorem capitalize_tidy (t : List Char)
    (h1 : noTwoWs t = true) (h2 : ∀ c ∈ t, pyIsSpace c = true → c = ' ')
    (h3 : t.dropWhile pyIsSpace = t)
    (h4 : t.reverse.dropWhile pyIsSpace = t.reverse) :
    noTwoWs (capitalizeFirst t) = true ∧
    (∀ c ∈ capitalizeFirst t, pyIsSpace c = true → c = ' ') ∧
    (capitalizeFirst t).dropWhile pyIsSpace = capitalizeFirst t ∧
    (capitalizeFirst t).reverse.dropWhile pyIsSpace = (capitalizeFirst t).reverse := by
  cases t with
  | nil => exact ⟨rfl, by simp [capitalizeFirst], rfl, rfl⟩
  | cons c cs =>
    rw [capitalizeFirst]
    split_ifs with hlow
    · have hc : pyIsSpace c = false := dropWhile_fix_head c cs h3
      have une : pyUpperChar c ≠ [] := pyUpperChar_ne_nil c
      have uall : (pyUpperChar c).all (fun d => !pyIsSpace d) = true := pyUpperChar_nonws c hc
      refine ⟨noTwoWs_append_nonws _ _ uall (noTwoWs_tail c cs h1), ?_, ?_, ?_⟩
      · intro d hd hws
        rcases List.mem_append.mp hd with hdu | hdc
        · rw [List.all_eq_true] at uall
          have := uall d hdu
          rw [hws] at this
          cases this
        · exact h2 d (List.mem_cons_of_mem c hdc) hws
      · exact dropWhile_fix_append _ _ une (dropWhile_of_all_neg _ uall)
      · rw [List.reverse_append]
        cases hcs : cs with
        | nil =>
          simp only [List.reverse_nil, List.nil_append]
          exact dropWhile_of_all_neg _ (by simpa using uall)
        | cons d ds =>
          have hrevne : cs.reverse ≠ [] := by simp [hcs]
          obtain ⟨e, r, her⟩ : ∃ e r, cs.reverse = e :: r := by
            cases hx : cs.reverse with
            | nil => exact absurd hx hrevne
            | cons e r => exact ⟨e, r, rfl⟩
          have h4' : (cs.reverse ++ [c]).dropWhile pyIsSpace = cs.reverse ++ [c] := by
            have : (c :: cs).reverse = cs.reverse ++ [c] := by simp
            rw [this] at h4
            exact h4
          rw [her, List.cons_append] at h4'
          have he : pyIsSpace e = false := dropWhile_fix_head e _ h4'
          rw [hcs] at her
          rw [her, List.cons_append, List.dropWhile_cons, if_neg (by simp [he])]
    · exact ⟨h1, h2, h3, h4⟩

/-- C10: for every input, the result of `preprocess_for_tts` has no two
adjacent whitespace characters, every whitespace character in it is a plain
space (hence no tabs and no newlines), and it has no leading and no
trailing whitespace (it is a fixed point of left and of right
whitespace-stripping). -/
theorem C10_preprocess_whitespace_tidy (s : String) :
    noTwoWs (preprocess_for_tts s).data = true ∧
    (∀ c ∈ (preprocess_for_tts s).data, pyIsSpace c = true → c = ' ') ∧
    '\t' ∉ (preprocess_for_tts s).data ∧
    '\n' ∉ (preprocess_for_tts s).data ∧
    (preprocess_for_tts s).data.dropWhile pyIsSpace = (preprocess_for_tts s).data ∧
    (preprocess_for_tts s).data.reverse.dropWhile pyIsSpace =
      (preprocess_for_tts s).data.reverse := by
  have hdata : (preprocess_for_tts s).data = capitalizeFirst
      (collapseWs (punctSpace (expandGo false (vietnameseNormalizeList s.data true)))) := rfl
  obtain ⟨p1, p2, p3, p4⟩ :=
    collapseWs_props (punctSpace (expandGo false (vietnameseNormalizeList s.data true)))
  obtain ⟨q1, q2, q3, q4⟩ := capitalize_tidy _ p1 p2 p3 p4
  rw [hdata]
  refine ⟨q1, q2, ?_, ?_, q3, q4⟩
  · intro hmem
    have := q2 '\t' hmem (by decide)
    cases this
  · intro hmem
    have := q2 '\n' hmem (by decide)
    cases this

theorem subGo_of_noBoundary (ab ex : List Char) : ∀ (t : List Char) (b : Bool),
    noBoundaryOcc ab b t = true → subGo ab ex 0 b t = t := by
  intro t
  induction t with
  | nil => intro b _; rfl
  | cons c cs ih =>
    intro b h
    rw [noBoundaryOcc] at h
    simp only [Bool.and_eq_true, Bool.not_eq_true'] at h
    rw [subGo, if_neg (by simp [h.1]), ih _ h.2]

theorem subGo_length (ab ex : List Char) (hab : 1 ≤ ab.length)
    (hlen : ab.length ≤ ex.length) :
    ∀ (t : List Char) (k : Nat) (b : Bool),
      t.length - k ≤ (subGo ab ex k b t).length := by
  intro t
  induction t with
  | nil => intro k b; simp [subGo]
  | cons c cs ih =>
    intro k b
    match k with
    | k + 1 =>
      rw [subGo]
      have := ih k (pyIsSpace c)
      simp only [List.length_cons]
      omega
    | 0 =>
      rw [subGo]
      split_ifs with hg
      · rw [List.length_append]
        have := ih (ab.length - 1) (pyIsSpace c)
        simp only [List.length_cons]
        omega
      · have := ih 0 (pyIsSpace c)
        simp only [List.length_cons]
        omega

theorem subGo_length_strict (ab ex : List Char) (hab : 1 ≤ ab.length)
    (hlen : ab.length < ex.length) :
    ∀ (t : List Char) (b : Bool), noBoundaryOcc ab b t = false →
      t.length < (subGo ab ex 0 b t).length := by
  intro t
  induction t with
  | nil => intro b h; rw [noBoundaryOcc] at h; cases h
  | cons c cs ih =>
    intro b h
    rw [noBoundaryOcc] at h
    rw [subGo]
    split_ifs with hg
    · rw [List.length_append]
      have := subGo_length ab ex hab (by omega) cs (ab.length - 1) (pyIsSpace c)
      simp only [List.length_cons]
      omega
    · have hg' : (b && matchCI ab (c :: cs)) = false := by
        cases hb : b <;> cases hm : matchCI ab (c :: cs) <;> simp_all
      rw [hg', Bool.not_false, Bool.true_and] at h
      have := ih (pyIsSpace c) h
      simp only [List.length_cons]
      omega

/-- C4: abbreviation substitution replaces an occurrence of the literal if
and only if it starts at a token boundary (start of string, or right after
whitespace).  First conjunct: for every table entry, one substitution pass
is the identity exactly when the text has no boundary occurrence of the
literal.  Second conjunct: a whitespace-free text whose start is not at a
boundary — i.e. a mid-word context — is never changed, for any literal and
expansion.  The concrete pipeline examples show a boundary occurrence
being expanded (also case-insensitively, with the expansion's own casing
kept), and a mid-word occurrence left alone. -/
theorem C4_abbrev_boundary_only :
    (∀ ab ex : String, (ab, ex) ∈ ABBREVIATIONS → ∀ (t : List Char) (b : Bool),
      (subGo ab.data ex.data 0 b t = t ↔ noBoundaryOcc ab.data b t = true)) ∧
    (∀ (ab ex t : List Char), t.all (fun c => !pyIsSpace c) = true →
      subGo ab ex 0 false t = t) ∧
    vietnamese_normalize "Đi tp. HCM" = "Đi thành phố HCM" ∧
    vietnamese_normalize "đi TP. hcm" = "đi thành phố hcm" ∧
    vietnamese_normalize "xtp.HCM" = "xtp.HCM" := by
  refine ⟨?_, ?_, by decide, by decide, by decide⟩
  · intro ab ex hmem t b
    have hfacts : ABBREVIATIONS.all
        (fun e => 1 ≤ e.1.data.length && e.1.data.length < e.2.data.length) = true := by decide
    rw [List.all_eq_true] at hfacts
    have hf := hfacts (ab, ex) hmem
    simp only [Bool.and_eq_true, decide_eq_true_eq] at hf
    constructor
    · intro heq
      by_contra hno
      have hno' : noBoundaryOcc ab.data b t = false := by
        cases hx : noBoundaryOcc ab.data b t
        · rfl
        · exact absurd hx hno
      have := subGo_length_strict ab.data ex.data hf.1 hf.2 t b hno'
      rw [heq] at this
      omega
    · exact subGo_of_noBoundary ab.data ex.data t b
  · intro ab ex t h
    induction t with
    | nil => rfl
    | cons c cs ih =>
      simp only [List.all_cons, Bool.and_eq_true, Bool.not_eq_true'] at h
      rw [subGo, if_neg (by simp), h.1, ih h.2]

/-- Witness for C4: the iff applied to the first table entry on a concrete
boundary text and the mid-word clause applied to a concrete text. -/
theorem C4_abbrev_boundary_only_witness :
    (subGo "tp.".data "thành phố".data 0 true "tp. x".data = "tp. x".data ↔
      noBoundaryOcc "tp.".data true "tp. x".data = true) ∧
    subGo "tp.".data "thành phố".data 0 false "xtp.HCM".data = "xtp.HCM".data :=
  ⟨C4_abbrev_boundary_only.1 "tp." "thành phố" (by decide) "tp. x".data true,
   C4_abbrev_boundary_only.2.1 "tp.".data "thành phố".data "xtp.HCM".data (by decide)⟩

theorem matchCI_length_le : ∀ (ab t : List Char), matchCI ab t = true → ab.length ≤ t.length := by
  intro ab
  induction ab with
  | nil => intro t _; simp
  | cons p ps ih =>
    intro t h
    cases t with
    | nil => rw [matchCI] at h; cases h
    | cons c cs =>
      rw [matchCI] at h
      simp only [Bool.and_eq_true] at h
      have := ih cs h.2
      simp only [List.length_cons]
      omega

theorem pyIsSpace_asciiLower_fix (c : Char) (h : pyIsSpace c = true) : asciiLower c = c := by
  rw [pyIsSpace] at h
  have hmem : c.toNat ∈ wsCodes := by simpa using h
  have hfact : wsCodes.all (fun n => decide (n < 65) || decide (90 < n)) = true := by decide
  rw [List.all_eq_true] at hfact
  have hx := hfact _ hmem
  simp only [Bool.or_eq_true, decide_eq_true_eq] at hx
  rw [asciiLower, if_neg]
  simp only [Bool.and_eq_true, decide_eq_true_eq, not_and]
  omega

theorem reCharMatch_ws (p c : Char) (hm : reCharMatch p c = true) (hws : pyIsSpace c = true) :
    pyIsSpace (asciiLower p) = true := by
  rw [reCharMatch] at hm
  simp only [Bool.or_eq_true] at hm
  rcases hm with hm | hm
  · have heq : asciiLower p = asciiLower c := by simpa using hm
    rw [heq, pyIsSpace_asciiLower_fix c hws]
    exact hws
  · have hpair : ((asciiLower p).toNat, c.toNat) = (115, 383) := by
      simpa [ciExtraPairs] using hm
    have hc383 : c.toNat = 383 := congrArg Prod.snd hpair
    exact absurd hws (by rw [pyIsSpace, hc383]; decide)

theorem matchCI_ws_head (ab : List Char) (hab : ab ≠ []) (hpat : patNoWs ab = true)
    (c : Char) (hc : pyIsSpace c = true) (cs : List Char) :
    matchCI ab (c :: cs) = false := by
  cases ab with
  | nil => exact absurd rfl hab
  | cons p ps =>
    rw [matchCI]
    rw [patNoWs] at hpat
    simp only [List.all_cons, Bool.and_eq_true, Bool.not_eq_true'] at hpat
    cases hr : reCharMatch p c
    · simp
    · exact absurd (reCharMatch_ws p c hr hc) (by simp [hpat.1])

theorem matchCI_token : ∀ (tk ab r : List Char), patNoWs ab = true →
    tk.all (fun c => !pyIsSpace c) = true → headWsOrNil r →
    matchCI ab (tk ++ r) = matchCI ab tk := by
  intro tk
  induction tk with
  | nil =>
    intro ab r hpat _ hr
    cases ab with
    | nil => rfl
    | cons p ps =>
      cases r with
      | nil => rfl
      | cons c cs =>
        rw [show matchCI (p :: ps) ([] : List Char) = false from rfl, List.nil_append]
        exact matchCI_ws_head (p :: ps) (by simp) hpat c hr cs
  | cons d tk' ih =>
    intro ab r hpat htk hr
    cases ab with
    | nil => rfl
    | cons p ps =>
      simp only [List.all_cons, Bool.and_eq_true] at htk
      rw [List.cons_append, matchCI, matchCI]
      rw [patNoWs] at hpat
      simp only [List.all_cons, Bool.and_eq_true] at hpat
      rw [ih ps r (by rw [patNoWs]; exact hpat.2) htk.2 hr]

theorem matchCI_prefix_false : ∀ (w ab r : List Char),
    matchCI (ab.take w.length) w = false → matchCI ab (w ++ r) = false := by
  intro w
  induction w with
  | nil =>
    intro ab r h
    simp only [List.length_nil, List.take_zero] at h
    cases h
  | cons wc ws' ih =>
    intro ab r h
    cases ab with
    | nil => simp [matchCI] at h
    | cons p ps =>
      rw [List.length_cons, List.take_succ_cons, matchCI] at h
      rw [List.cons_append, matchCI]
      cases hr : reCharMatch p wc
      · simp
      · rw [hr] at h
        simp only [Bool.true_and] at h
        rw [ih ps r h]
        simp

theorem subGo_copy_false (ab ex : List Char) : ∀ (u v : List Char),
    u.all (fun c => !pyIsSpace c) = true →
    subGo ab ex 0 false (u ++ v) = u ++ subGo ab ex 0 false v := by
  intro u
  induction u with
  | nil => intro v _; rfl
  | cons c cs ih =>
    intro v h
    simp only [List.all_cons, Bool.and_eq_true, Bool.not_eq_true'] at h
    rw [List.cons_append, subGo, if_neg (by simp), h.1, ih v h.2]
    rfl

theorem subGo_skip (ab ex : List Char) : ∀ (u v : List Char),
    u.all (fun c => !pyIsSpace c) = true →
    subGo ab ex u.length false (u ++ v) = subGo ab ex 0 false v := by
  intro u
  induction u with
  | nil => intro v _; rfl
  | cons c cs ih =>
    intro v h
    simp only [List.all_cons, Bool.and_eq_true, Bool.not_eq_true'] at h
    rw [List.cons_append, show (c :: cs).length = cs.length + 1 from rfl, subGo, h.1,
        ih v h.2]

theorem subGo_skip_len (ab ex : List Char) (n : Nat) (u v : List Char)
    (hall : u.all (fun c => !pyIsSpace c) = true) (hn : u.length = n) :
    subGo ab ex n false (u ++ v) = subGo ab ex 0 false v := by
  subst hn
  exact subGo_skip ab ex u v hall

theorem subGo_chars (ab ex : List Char) : ∀ (t : List Char) (k : Nat) (b : Bool) (c : Char),
    c ∈ subGo ab ex k b t → c ∈ t ∨ c ∈ ex := by
  intro t
  induction t with
  | nil => intro k b c h; simp [subGo] at h
  | cons d cs ih =>
    intro k b c h
    cases k with
    | succ k =>
      rw [subGo] at h
      rcases ih k _ c h with h1 | h2
      · exact Or.inl (List.mem_cons_of_mem d h1)
      · exact Or.inr h2
    | zero =>
      rw [subGo] at h
      split_ifs at h with hg
      · rcases List.mem_append.mp h with h1 | h2
        · exact Or.inr h1
        · rcases ih _ _ c h2 with h3 | h4
          · exact Or.inl (List.mem_cons_of_mem d h3)
          · exact Or.inr h4
      · rcases List.mem_cons.mp h with rfl | h2
        · exact Or.inl (List.mem_cons_self _ _)
        · rcases ih _ _ c h2 with h3 | h4
          · exact Or.inl (List.mem_cons_of_mem d h3)
          · exact Or.inr h4

theorem mem_of_mem_takeWhile {p : Char → Bool} : ∀ (l : List Char) (c : Char),
    c ∈ l.takeWhile p → c ∈ l := by
  intro l
  induction l with
  | nil => intro c h; simp at h
  | cons a as ih =>
    intro c h
    rw [List.takeWhile_cons] at h
    split_ifs at h with ha
    · rcases List.mem_cons.mp h with rfl | h2
      · exact List.mem_cons_self _ _
      · exact List.mem_cons_of_mem a (ih c h2)
    · simp at h

theorem mem_of_mem_dropWhile {p : Char → Bool} : ∀ (l : List Char) (c : Char),
    c ∈ l.dropWhile p → c ∈ l := by
  intro l
  induction l with
  | nil => intro c h; simp at h
  | cons a as ih =>
    intro c h
    rw [List.dropWhile_cons] at h
    split_ifs at h with ha
    · exact List.mem_cons_of_mem a (ih c h)
    · exact h

theorem dropWhile_nil_all {p : Char → Bool} : ∀ (l : List Char),
    l.dropWhile p = [] → l.all p = true := by
  intro l
  induction l with
  | nil => intro _; rfl
  | cons a as ih =>
    intro h
    rw [List.dropWhile_cons] at h
    by_cases ha : p a = true
    · rw [if_pos ha] at h
      simp [ha, ih h]
    · rw [if_neg ha] at h
      cases h

theorem takeWhile_stop_append {p : Char → Bool} : ∀ (l r : List Char), l.dropWhile p ≠ [] →
    (l ++ r).takeWhile p = l.takeWhile p ∧ (l ++ r).dropWhile p = l.dropWhile p ++ r := by
  intro l
  induction l with
  | nil => intro r h; simp at h
  | cons c cs ih =>
    intro r h
    rw [List.dropWhile_cons] at h
    by_cases hc : p c = true
    · rw [if_pos hc] at h
      obtain ⟨h1, h2⟩ := ih r h
      constructor
      · rw [List.cons_append, List.takeWhile_cons, if_pos hc, h1, List.takeWhile_cons,
            if_pos hc]
      · rw [List.cons_append, List.dropWhile_cons, if_pos hc, h2, List.dropWhile_cons,
            if_pos hc]
    · constructor
      · rw [List.cons_append, List.takeWhile_cons, if_neg (by simp [hc]),
            List.takeWhile_cons, if_neg (by simp [hc])]
      · rw [List.cons_append, List.dropWhile_cons, if_neg (by simp [hc]),
            List.dropWhile_cons, if_neg (by simp [hc])]
        rfl

theorem pySplit_wsfree (tk : List Char) (h1 : tk ≠ [])
    (h2 : tk.all (fun c => !pyIsSpace c) = true) : pySplit tk = [tk] := by
  cases tk with
  | nil => exact absurd rfl h1
  | cons c cs =>
    simp only [List.all_cons, Bool.and_eq_true, Bool.not_eq_true'] at h2
    rw [pySplit_cons_nonws c h2.1 cs, takeWhile_of_all cs (by simpa using h2.2),
        dropWhile_all_nil cs (by simpa using h2.2)]
    rfl

theorem pySplit_token_cons_ws (tk : List Char) (h1 : tk ≠ [])
    (h2 : tk.all (fun c => !pyIsSpace c) = true) (c : Char) (hc : pyIsSpace c = true)
    (u : List Char) : pySplit (tk ++ c :: u) = tk :: pySplit u := by
  cases tk with
  | nil => exact absurd rfl h1
  | cons a as =>
    simp only [List.all_cons, Bool.and_eq_true, Bool.not_eq_true'] at h2
    rw [List.cons_append, pySplit_cons_nonws a h2.1,
        takeWhile_append_all as (c :: u) (by simpa using h2.2),
        dropWhile_append_all as (c :: u) (by simpa using h2.2),
        List.takeWhile_cons, if_neg (by simp [hc]), List.dropWhile_cons,
        if_neg (by simp [hc]), pySplit_ws_cons c hc]
    simp

theorem pySplit_chars : ∀ (k : Nat) (t : List Char), t.length ≤ k →
    ∀ tk ∈ pySplit t, ∀ c ∈ tk, c ∈ t := by
  intro k
  induction k with
  | zero =>
    intro t ht tk htk c hc
    have : t = [] := by cases t <;> simp_all
    subst this
    simp [pySplit, pySplitGo] at htk
  | succ k ih =>
    intro t ht tk htk c hc
    cases t with
    | nil => simp [pySplit, pySplitGo] at htk
    | cons d cs =>
      simp only [List.length_cons] at ht
      by_cases hd : pyIsSpace d = true
      · rw [pySplit_ws_cons d hd] at htk
        exact List.mem_cons_of_mem d (ih cs (by omega) tk htk c hc)
      · rw [pySplit_cons_nonws d (by simpa using hd)] at htk
        rcases List.mem_cons.mp htk with rfl | htk2
        · rcases List.mem_cons.mp hc with rfl | hc2
          · exact List.mem_cons_self _ _
          · exact List.mem_cons_of_mem d (mem_of_mem_takeWhile cs c hc2)
        · have hlen := dropWhile_length_le (p := fun x => !pyIsSpace x) cs
          have := ih _ (by omega) tk htk2 c hc
          exact List.mem_cons_of_mem d (mem_of_mem_dropWhile cs c this)

theorem pySplit_append_wshead : ∀ (k : Nat) (u v : List Char), u.length ≤ k →
    headWsOrNil v → pySplit (u ++ v) = pySplit u ++ pySplit v := by
  intro k
  induction k with
  | zero =>
    intro u v hu hv
    have : u = [] := by cases u <;> simp_all
    subst this
    simp [pySplit, pySplitGo]
  | succ k ih =>
    intro u v hu hv
    cases u with
    | nil => simp [pySplit, pySplitGo]
    | cons x u' =>
      simp only [List.length_cons] at hu
      by_cases hx : pyIsSpace x = true
      · rw [List.cons_append, pySplit_ws_cons x hx, pySplit_ws_cons x hx,
            ih u' v (by omega) hv]
      · rw [List.cons_append, pySplit_cons_nonws x (by simpa using hx),
            pySplit_cons_nonws x (by simpa using hx)]
        by_cases hdw : u'.dropWhile (fun d => !pyIsSpace d) = []
        · have hall := dropWhile_nil_all u' hdw
          rw [takeWhile_append_all u' v hall, dropWhile_append_all u' v hall,
              takeWhile_of_all u' hall, hdw]
          cases v with
          | nil => simp [pySplit, pySplitGo]
          | cons vc vcs =>
            have hvc : pyIsSpace vc = true := hv
            rw [List.takeWhile_cons, if_neg (by simp [hvc]), List.dropWhile_cons,
                if_neg (by simp [hvc]), pySplit_ws_cons vc hvc]
            simp [pySplit, pySplitGo]
        · obtain ⟨htw, hdwa⟩ := takeWhile_stop_append u' v hdw
          rw [htw, hdwa]
          have hlen := dropWhile_length_le (p := fun d => !pyIsSpace d) u'
          rw [ih (u'.dropWhile _) v (by omega) hv]
          simp

theorem all_take {p : Char → Bool} : ∀ (l : List Char) (n : Nat), l.all p = true →
    (l.take n).all p = true := by
  intro l
  induction l with
  | nil => intro n _; simp
  | cons a as ih =>
    intro n h
    simp only [List.all_cons, Bool.and_eq_true] at h
    cases n with
    | zero => simp
    | succ n => simp only [List.take_succ_cons, List.all_cons, Bool.and_eq_true]
                exact ⟨h.1, ih n h.2⟩

theorem all_drop {p : Char → Bool} : ∀ (l : List Char) (n : Nat), l.all p = true →
    (l.drop n).all p = true := by
  intro l
  induction l with
  | nil => intro n _; simp
  | cons a as ih =>
    intro n h
    simp only [List.all_cons, Bool.and_eq_true] at h
    cases n with
    | zero => simpa using h
    | succ n => simpa using ih n h.2

theorem dropWhile_head_ws : ∀ (l : List Char),
    headWsOrNil (l.dropWhile (fun d => !pyIsSpace d)) := by
  intro l
  induction l with
  | nil => trivial
  | cons a as ih =>
    rw [List.dropWhile_cons]
    by_cases ha : pyIsSpace a = true
    · rw [if_neg (by simp [ha])]
      exact ha
    · rw [if_pos (by simp [ha])]
      exact ih

/-- One substitution pass factors through the whitespace structure: the
fields of the output are the fields of the input, each rewritten by `rtk`
(and re-split, as an expansion may contain spaces), with all whitespace
runs of the input acting as boundaries. -/
theorem split_sub (ab ex : List Char) (hpat : patNoWs ab = true) (hab : ab ≠ []) :
    ∀ (k : Nat) (t : List Char), t.length ≤ k → ∀ b : Bool, (b = true ∨ headWsOrNil t) →
      pySplit (subGo ab ex 0 b t) =
        (pySplit t).flatMap (fun tk => pySplit (rtk ab ex tk)) := by
  intro k
  induction k with
  | zero =>
    intro t ht b hb
    have : t = [] := by cases t <;> simp_all
    subst this
    simp [subGo, pySplit, pySplitGo]
  | succ k ih =>
    intro t ht b hb
    cases t with
    | nil => simp [subGo, pySplit, pySplitGo]
    | cons c cs =>
      simp only [List.length_cons] at ht
      by_cases hc : pyIsSpace c = true
      · rw [subGo, if_neg (by simp [matchCI_ws_head ab hab hpat c hc cs]), hc,
            pySplit_ws_cons c hc (subGo ab ex 0 true cs), pySplit_ws_cons c hc cs]
        exact ih cs (by omega) true (Or.inl rfl)
      · have hb' : b = true := by
          rcases hb with h | h
          · exact h
          · exact absurd h (by simp [headWsOrNil, hc])
        subst hb'
        have hcf : pyIsSpace c = false := by simpa using hc
        have htwall : (cs.takeWhile (fun d => !pyIsSpace d)).all (fun d => !pyIsSpace d) = true := by
          have hgen : ∀ m : List Char,
              (m.takeWhile (fun d => !pyIsSpace d)).all (fun d => !pyIsSpace d) = true := by
            intro m
            induction m with
            | nil => rfl
            | cons a as iha =>
              rw [List.takeWhile_cons]
              split_ifs with hcond
              · simp [hcond, iha]
              · rfl
          exact hgen cs
        have htkall : (c :: cs.takeWhile (fun d => !pyIsSpace d)).all (fun d => !pyIsSpace d) = true := by
          simp only [List.all_cons, Bool.and_eq_true]
          exact ⟨by simp [hcf], htwall⟩
        have hrws : headWsOrNil (cs.dropWhile (fun d => !pyIsSpace d)) := dropWhile_head_ws cs
        have hsplitcs : cs.takeWhile (fun d => !pyIsSpace d) ++ cs.dropWhile (fun d => !pyIsSpace d) = cs :=
          List.takeWhile_append_dropWhile (fun d => !pyIsSpace d) cs
        have hmCI : matchCI ab (c :: cs) =
            matchCI ab (c :: cs.takeWhile (fun d => !pyIsSpace d)) := by
          conv_lhs => rw [← hsplitcs]
          rw [show c :: (cs.takeWhile (fun d => !pyIsSpace d) ++ cs.dropWhile (fun d => !pyIsSpace d)) =
                (c :: cs.takeWhile (fun d => !pyIsSpace d)) ++ cs.dropWhile (fun d => !pyIsSpace d) from rfl]
          exact matchCI_token _ ab _ hpat htkall hrws
        have hrlen := dropWhile_length_le (p := fun d => !pyIsSpace d) cs
        rw [pySplit_cons_nonws c hcf cs, subGo]
        by_cases hm : matchCI ab (c :: cs) = true
        · rw [if_pos (by simp [hm])]
          have hmtk : matchCI ab (c :: cs.takeWhile (fun d => !pyIsSpace d)) = true := by
            rw [← hmCI]; exact hm
          have hlab : ab.length ≤ (cs.takeWhile (fun d => !pyIsSpace d)).length + 1 := by
            have := matchCI_length_le ab _ hmtk
            simpa using this
          have hulen : (List.take (ab.length - 1) (cs.takeWhile (fun d => !pyIsSpace d))).length = ab.length - 1 := by
            rw [List.length_take]
            omega
          have hcsdec : cs = List.take (ab.length - 1) (cs.takeWhile (fun d => !pyIsSpace d)) ++
              (List.drop (ab.length - 1) (cs.takeWhile (fun d => !pyIsSpace d)) ++
               cs.dropWhile (fun d => !pyIsSpace d)) := by
            rw [← List.append_assoc, List.take_append_drop, hsplitcs]
          have hstep : subGo ab ex (ab.length - 1) (pyIsSpace c) cs =
              subGo ab ex 0 false (List.drop (ab.length - 1) (cs.takeWhile (fun d => !pyIsSpace d)) ++
                cs.dropWhile (fun d => !pyIsSpace d)) := by
            rw [hcf]
            conv_lhs => rw [hcsdec]
            exact subGo_skip_len ab ex (ab.length - 1) _ _ (all_take _ _ htwall) hulen
          rw [hstep, subGo_copy_false ab ex _ _ (all_drop _ _ htwall)]
          have hrtk : rtk ab ex (c :: cs.takeWhile (fun d => !pyIsSpace d)) =
              ex ++ List.drop (ab.length - 1) (cs.takeWhile (fun d => !pyIsSpace d)) := by
            rw [rtk, if_pos hmtk]
            congr 1
            cases hablen : ab.length with
            | zero => exact absurd (List.length_eq_zero.mp hablen) hab
            | succ m => rw [List.drop_succ_cons, Nat.succ_sub_one]
          cases hrcase : cs.dropWhile (fun d => !pyIsSpace d) with
          | nil =>
            rw [List.flatMap_cons, hrtk]
            simp [subGo, pySplit, pySplitGo, List.append_assoc]
          | cons rc rcs =>
            have hrcws : pyIsSpace rc = true := by
              have hx := hrws
              rw [hrcase] at hx
              exact hx
            rw [show subGo ab ex 0 false (rc :: rcs) =
                rc :: subGo ab ex 0 (pyIsSpace rc) rcs from by rw [subGo, if_neg (by simp)]]
            rw [hrcws]
            rw [show ex ++ (List.drop (ab.length - 1) (cs.takeWhile (fun d => !pyIsSpace d)) ++
                  rc :: subGo ab ex 0 true rcs) =
                (ex ++ List.drop (ab.length - 1) (cs.takeWhile (fun d => !pyIsSpace d))) ++
                  rc :: subGo ab ex 0 true rcs from by rw [List.append_assoc]]
            rw [pySplit_append_wshead ((ex ++ List.drop (ab.length - 1) (cs.takeWhile (fun d => !pyIsSpace d))).length)
                _ (rc :: subGo ab ex 0 true rcs) le_rfl hrcws]
            rw [pySplit_ws_cons rc hrcws (subGo ab ex 0 true rcs)]
            have hrlen2 : (cs.dropWhile (fun d => !pyIsSpace d)).length = rcs.length + 1 := by
              rw [hrcase]; rfl
            rw [ih rcs (by omega) true (Or.inl rfl)]
            rw [List.flatMap_cons, hrtk, pySplit_ws_cons rc hrcws rcs]
        · rw [if_neg (by simp [hm])]
          have hmtkf : matchCI ab (c :: cs.takeWhile (fun d => !pyIsSpace d)) = false := by
            rw [← hmCI]
            simpa using hm
          have hrtk : rtk ab ex (c :: cs.takeWhile (fun d => !pyIsSpace d)) =
              c :: cs.takeWhile (fun d => !pyIsSpace d) := by
            rw [rtk, if_neg (by simp [hmtkf])]
          have hcopy : subGo ab ex 0 (pyIsSpace c) cs =
              cs.takeWhile (fun d => !pyIsSpace d) ++
                subGo ab ex 0 false (cs.dropWhile (fun d => !pyIsSpace d)) := by
            rw [hcf]
            conv_lhs => rw [← hsplitcs]
            exact subGo_copy_false ab ex _ _ htwall
          rw [hcopy]
          cases hrcase : cs.dropWhile (fun d => !pyIsSpace d) with
          | nil =>
            rw [List.flatMap_cons, hrtk]
            rw [show (c : Char) :: (cs.takeWhile (fun d => !pyIsSpace d) ++ subGo ab ex 0 false []) =
                  (c :: cs.takeWhile (fun d => !pyIsSpace d)) from by simp [subGo]]
            rw [pySplit_wsfree _ (by simp) htkall]
            simp [pySplit, pySplitGo]
          | cons rc rcs =>
            have hrcws : pyIsSpace rc = true := by
              have hx := hrws
              rw [hrcase] at hx
              exact hx
            rw [show subGo ab ex 0 false (rc :: rcs) =
                rc :: subGo ab ex 0 (pyIsSpace rc) rcs from by rw [subGo, if_neg (by simp)]]
            rw [hrcws]
            rw [show (c : Char) :: (cs.takeWhile (fun d => !pyIsSpace d) ++ rc :: subGo ab ex 0 true rcs) =
                (c :: cs.takeWhile (fun d => !pyIsSpace d)) ++ rc :: subGo ab ex 0 true rcs from rfl]
            rw [pySplit_append_wshead ((c :: cs.takeWhile (fun d => !pyIsSpace d)).length) _
                (rc :: subGo ab ex 0 true rcs) le_rfl hrcws]
            rw [pySplit_ws_cons rc hrcws (subGo ab ex 0 true rcs)]
            have hrlen2 : (cs.dropWhile (fun d => !pyIsSpace d)).length = rcs.length + 1 := by
              rw [hrcase]; rfl
            rw [ih rcs (by omega) true (Or.inl rfl)]
            rw [List.flatMap_cons, hrtk, pySplit_ws_cons rc hrcws rcs]

/-- Splitting a single-space join of non-empty whitespace-free fields gives
back the fields: the whitespace collapse is idempotent at the field level. -/
theorem pySplit_joinSp : ∀ toks : List (List Char),
    (∀ tk ∈ toks, tk ≠ [] ∧ tk.all (fun c => !pyIsSpace c) = true) →
    pySplit (joinSp toks) = toks := by
  intro toks
  induction toks with
  | nil => intro _; rfl
  | cons tk tks ih =>
    intro h
    obtain ⟨hne, hall⟩ := h tk (by simp)
    cases tks with
    | nil => exact pySplit_wsfree tk hne hall
    | cons tk2 tks' =>
      rw [joinSp_cons_cons, pySplit_token_cons_ws tk hne hall ' ' (by decide) _,
          ih (fun x hx => h x (List.mem_cons_of_mem _ hx))]

theorem pySplit_collapseWs (t : List Char) : pySplit (collapseWs t) = pySplit t :=
  pySplit_joinSp (pySplit t) (pySplit_tokens t.length t le_rfl)

theorem collapseWs_eq_joinSp (t : List Char) : collapseWs t = joinSp (pySplit t) := rfl

theorem collapseWs_idem (t : List Char) : collapseWs (collapseWs t) = collapseWs t := by
  rw [show collapseWs (collapseWs t) = joinSp (pySplit (collapseWs t)) from rfl,
      pySplit_collapseWs, ← collapseWs_eq_joinSp]

theorem pyStrip_collapseWs (t : List Char) : pyStrip (collapseWs t) = collapseWs t := by
  obtain ⟨_, _, h3, h4⟩ := collapseWs_props t
  rw [pyStrip, h3, h4, List.reverse_reverse]

theorem keepChar_space : keepChar ' ' = true := by decide

theorem applyAbbrevs_keep (t : List Char) (h : t.all keepChar = true) :
    (applyAbbrevs t).all keepChar = true := by
  have haux : ∀ (es : List (String × String)),
      (∀ e ∈ es, e.2.data.all keepChar = true) → ∀ u : List Char, u.all keepChar = true →
      (es.foldl (fun acc e => subAbbr e.1.data e.2.data acc) u).all keepChar = true := by
    intro es
    induction es with
    | nil => intro _ u hu; exact hu
    | cons e es' ih =>
      intro hes u hu
      rw [List.foldl_cons]
      refine ih (fun x hx => hes x (List.mem_cons_of_mem _ hx)) _ ?_
      rw [List.all_eq_true]
      intro c hc
      rcases subGo_chars e.1.data e.2.data u 0 true c hc with h1 | h2
      · rw [List.all_eq_true] at hu
        exact hu c h1
      · have := hes e (by simp)
        rw [List.all_eq_true] at this
        exact this c h2
  have hfact : ∀ e ∈ ABBREVIATIONS, e.2.data.all keepChar = true := by
    have : ABBREVIATIONS.all (fun e => e.2.data.all keepChar) = true := by decide
    rw [List.all_eq_true] at this
    exact this
  exact haux ABBREVIATIONS hfact t h

theorem collapseWs_keep (t : List Char) (h : t.all keepChar = true) :
    (collapseWs t).all keepChar = true := by
  rw [List.all_eq_true]
  intro c hc
  rcases joinSp_mem _ c hc with rfl | ⟨tk, htk, hctk⟩
  · exact keepChar_space
  · rw [List.all_eq_true] at h
    exact h c (pySplit_chars t.length t le_rfl tk htk c hctk)

theorem filterStep_id (t : List Char) (h : t.all keepChar = true) : filterStep t = t := by
  induction t with
  | nil => rfl
  | cons c cs ih =>
    simp only [List.all_cons, Bool.and_eq_true] at h
    have hkc := h.1
    rw [keepChar, Bool.or_eq_true] at hkc
    rw [filterStep]
    rcases hp : keepPrimary c with _ | _
    · rw [if_neg (by simp [hp])]
      rcases hkc with h1 | h2
      · rw [hp] at h1; cases h1
      · rw [if_pos h2, ih h.2]
    · rw [if_pos rfl, ih h.2]

theorem pySplit_foldl : ∀ (es : List (String × String)),
    (∀ e ∈ es, patNoWs e.1.data = true ∧ e.1.data ≠ []) → ∀ t : List Char,
    pySplit (es.foldl (fun acc e => subAbbr e.1.data e.2.data acc) t) =
      foldTokens es (pySplit t) := by
  intro es
  induction es with
  | nil => intro _ t; rfl
  | cons e es' ih =>
    intro h t
    rw [List.foldl_cons, show foldTokens (e :: es') (pySplit t) =
        foldTokens es' ((pySplit t).flatMap (fun tk => pySplit (rtk e.1.data e.2.data tk))) from rfl,
        ih (fun x hx => h x (List.mem_cons_of_mem _ hx)) _]
    congr 1
    exact split_sub e.1.data e.2.data (h e (by simp)).1 (h e (by simp)).2 t.length t le_rfl
      true (Or.inl rfl)

theorem neverTok_word_append (w : List Char)
    (hcl : ABBREVIATIONS.all (fun e => !matchCI (e.1.data.take w.length) w) = true)
    (r : List Char) : neverTok (w ++ r) := by
  intro e he
  rw [List.all_eq_true] at hcl
  have := hcl e he
  simp only [Bool.not_eq_true'] at this
  exact matchCI_prefix_false w e.1.data r this

theorem expTokens_last (w : List Char) (hwne : w ≠ [])
    (hwall : w.all (fun c => !pyIsSpace c) = true)
    (hcl : ABBREVIATIONS.all (fun e => !matchCI (e.1.data.take w.length) w) = true)
    (rest : List Char) (hrest : rest.all (fun c => !pyIsSpace c) = true) :
    ∀ tk ∈ pySplit (w ++ rest),
      (tk ≠ [] ∧ tk.all (fun c => !pyIsSpace c) = true) ∧ neverTok tk := by
  intro tk htk
  have hallapp : (w ++ rest).all (fun c => !pyIsSpace c) = true := by
    rw [List.all_append, hwall, hrest]
    rfl
  have hne : w ++ rest ≠ [] := by
    cases w with
    | nil => exact absurd rfl hwne
    | cons a as => simp
  rw [pySplit_wsfree _ hne hallapp] at htk
  simp only [List.mem_singleton] at htk
  subst htk
  exact ⟨⟨hne, hallapp⟩, neverTok_word_append w hcl rest⟩

theorem expTokens_cons (w : List Char) (hwne : w ≠ [])
    (hwall : w.all (fun c => !pyIsSpace c) = true)
    (hnm : ABBREVIATIONS.all (fun e => !matchCI e.1.data w) = true)
    (rest2 : List Char)
    (hP : ∀ tk ∈ pySplit rest2,
      (tk ≠ [] ∧ tk.all (fun c => !pyIsSpace c) = true) ∧ neverTok tk) :
    ∀ tk ∈ pySplit (w ++ ' ' :: rest2),
      (tk ≠ [] ∧ tk.all (fun c => !pyIsSpace c) = true) ∧ neverTok tk := by
  intro tk htk
  rw [pySplit_token_cons_ws w hwne hwall ' ' (by decide) rest2] at htk
  rcases List.mem_cons.mp htk with rfl | htk2
  · refine ⟨⟨hwne, hwall⟩, ?_⟩
    intro e he
    rw [List.all_eq_true] at hnm
    have := hnm e he
    simpa using this
  · exact hP tk htk2

/-- Every field of a split expansion followed by a whitespace-free rest of a
field is non-empty, whitespace-free, and matched by no table literal. -/
theorem expansion_tokens_good : ∀ e ∈ ABBREVIATIONS, ∀ rest : List Char,
    rest.all (fun c => !pyIsSpace c) = true →
    ∀ tk ∈ pySplit (e.2.data ++ rest),
      (tk ≠ [] ∧ tk.all (fun c => !pyIsSpace c) = true) ∧ neverTok tk := by
  intro e he
  simp only [ABBREVIATIONS, List.mem_cons, List.not_mem_nil, or_false] at he
  rcases he with rfl | rfl | rfl | rfl | rfl | rfl | rfl | rfl | rfl | rfl | rfl | rfl | rfl | rfl | rfl | rfl | rfl | rfl
  · intro rest hrest
    exact expTokens_cons "thành".data (by decide) (by decide) (by decide)
      ("phố".data ++ rest)
      (expTokens_last "phố".data (by decide) (by decide) (by decide) rest hrest)
  · intro rest hrest
    exact expTokens_cons "thành".data (by decide) (by decide) (by decide)
      ("phố".data ++ rest)
      (expTokens_last "phố".data (by decide) (by decide) (by decide) rest hrest)
  · intro rest hrest
    exact expTokens_cons "thạc".data (by decide) (by decide) (by decide)
      ("sĩ".data ++ rest)
      (expTokens_last "sĩ".data (by decide) (by decide) (by decide) rest hrest)
  · intro rest hrest
    exact expTokens_cons "thạc".data (by decide) (by decide) (by decide)
      ("sĩ".data ++ rest)
      (expTokens_last "sĩ".data (by decide) (by decide) (by decide) rest hrest)
  · intro rest hrest
    exact expTokens_cons "tiến".data (by decide) (by decide) (by decide)
      ("sĩ".data ++ rest)
      (expTokens_last "sĩ".data (by decide) (by decide) (by decide) rest hrest)
  · intro rest hrest
    exact expTokens_cons "tiến".data (by decide) (by decide) (by decide)
      ("sĩ".data ++ rest)
      (expTokens_last "sĩ".data (by decide) (by decide) (by decide) rest hrest)
  · intro rest hrest
    exact expTokens_cons "giáo".data (by decide) (by decide) (by decide)
      ("sư".data ++ rest)
      (expTokens_last "sư".data (by decide) (by decide) (by decide) rest hrest)
  · intro rest hrest
    exact expTokens_cons "giáo".data (by decide) (by decide) (by decide)
      ("sư".data ++ rest)
      (expTokens_last "sư".data (by decide) (by decide) (by decide) rest hrest)
  · intro rest hrest
    exact expTokens_cons "phó".data (by decide) (by decide) (by decide)
      ("giáo".data ++ ' ' :: ("sư".data ++ rest))
      (expTokens_cons "giáo".data (by decide) (by decide) (by decide) ("sư".data ++ rest)
        (expTokens_last "sư".data (by decide) (by decide) (by decide) rest hrest))
  · intro rest hrest
    exact expTokens_cons "phó".data (by decide) (by decide) (by decide)
      ("giáo".data ++ ' ' :: ("sư".data ++ rest))
      (expTokens_cons "giáo".data (by decide) (by decide) (by decide) ("sư".data ++ rest)
        (expTokens_last "sư".data (by decide) (by decide) (by decide) rest hrest))
  · intro rest hrest
    exact expTokens_last "quận".data (by decide) (by decide) (by decide) rest hrest
  · intro rest hrest
    exact expTokens_last "quận".data (by decide) (by decide) (by decide) rest hrest
  · intro rest hrest
    exact expTokens_last "phường".data (by decide) (by decide) (by decide) rest hrest
  · intro rest hrest
    exact expTokens_last "phường".data (by decide) (by decide) (by decide) rest hrest
  · intro rest hrest
    exact expTokens_cons "thị".data (by decide) (by decide) (by decide)
      ("xã".data ++ rest)
      (expTokens_last "xã".data (by decide) (by decide) (by decide) rest hrest)
  · intro rest hrest
    exact expTokens_cons "thị".data (by decide) (by decide) (by decide)
      ("xã".data ++ rest)
      (expTokens_last "xã".data (by decide) (by decide) (by decide) rest hrest)
  · intro rest hrest
    exact expTokens_cons "thị".data (by decide) (by decide) (by decide)
      ("trấn".data ++ rest)
      (expTokens_last "trấn".data (by decide) (by decide) (by decide) rest hrest)
  · intro rest hrest
    exact expTokens_cons "thị".data (by decide) (by decide) (by decide)
      ("trấn".data ++ rest)
      (expTokens_last "trấn".data (by decide) (by decide) (by decide) rest hrest)

theorem foldTokens_good : ∀ (es P : List (String × String)), P ++ es = ABBREVIATIONS →
    ∀ tks : List (List Char),
    (∀ tk ∈ tks, (tk ≠ [] ∧ tk.all (fun c => !pyIsSpace c) = true) ∧
      ((∀ e ∈ P, matchCI e.1.data tk = false) ∨ neverTok tk)) →
    ∀ tk' ∈ foldTokens es tks, (tk' ≠ [] ∧ tk'.all (fun c => !pyIsSpace c) = true) ∧
      ((∀ e ∈ P ++ es, matchCI e.1.data tk' = false) ∨ neverTok tk') := by
  intro es
  induction es with
  | nil =>
    intro P hP tks h tk' htk'
    have := h tk' htk'
    simpa using this
  | cons e es' ih =>
    intro P hP tks h tk' htk'
    rw [show foldTokens (e :: es') tks =
        foldTokens es' (tks.flatMap (fun tk => pySplit (rtk e.1.data e.2.data tk))) from rfl] at htk'
    have hP' : (P ++ [e]) ++ es' = ABBREVIATIONS := by
      rw [List.append_assoc]
      exact hP
    have hmain := ih (P ++ [e]) hP' _ ?_ tk' htk'
    · refine ⟨hmain.1, ?_⟩
      rcases hmain.2 with h1 | h2
      · left
        intro e' he'
        refine h1 e' ?_
        simp only [List.append_assoc, List.mem_append, List.mem_cons] at he' ⊢
        tauto
      · right
        exact h2
    · intro tk2 htk2
      rw [List.mem_flatMap] at htk2
      obtain ⟨tk, htk, htk2m⟩ := htk2
      obtain ⟨⟨hne, hall⟩, hclean⟩ := h tk htk
      by_cases hm : matchCI e.1.data tk = true
      · rw [rtk, if_pos hm] at htk2m
        have hrest : (tk.drop e.1.data.length).all (fun c => !pyIsSpace c) = true :=
          all_drop _ _ hall
        have hone : e ∈ ABBREVIATIONS := by
          rw [← hP]
          exact List.mem_append.mpr (Or.inr (List.mem_cons_self _ _))
        have hgood := expansion_tokens_good e hone (tk.drop e.1.data.length) hrest tk2 htk2m
        exact ⟨hgood.1, Or.inr hgood.2⟩
      · rw [rtk, if_neg hm] at htk2m
        rw [pySplit_wsfree tk hne hall] at htk2m
        simp only [List.mem_singleton] at htk2m
        subst htk2m
        refine ⟨⟨hne, hall⟩, ?_⟩
        rcases hclean with hcl | hnev
        · left
          intro e' he'
          rcases List.mem_append.mp he' with h1 | h2
          · exact hcl e' h1
          · rcases List.mem_singleton.mp h2 with rfl
            exact Bool.not_eq_true _ ▸ (by simpa using hm)
        · right
          exact hnev

theorem applyAbbrevs_tokens (t : List Char) :
    ∀ tk ∈ pySplit (applyAbbrevs t),
      (tk ≠ [] ∧ tk.all (fun c => !pyIsSpace c) = true) ∧ neverTok tk := by
  intro tk htk
  have hfacts : ∀ e ∈ ABBREVIATIONS, patNoWs e.1.data = true ∧ e.1.data ≠ [] := by
    have hx : ABBREVIATIONS.all (fun e => patNoWs e.1.data && !e.1.data.isEmpty) = true := by
      decide
    rw [List.all_eq_true] at hx
    intro e he
    have := hx e he
    simp only [Bool.and_eq_true, Bool.not_eq_true', List.isEmpty_eq_false_iff_exists_mem] at this
    refine ⟨this.1, ?_⟩
    obtain ⟨x, hxm⟩ := this.2
    intro hnil
    rw [hnil] at hxm
    simp at hxm
  rw [show applyAbbrevs t =
      ABBREVIATIONS.foldl (fun acc e => subAbbr e.1.data e.2.data acc) t from rfl,
      pySplit_foldl ABBREVIATIONS hfacts t] at htk
  have hstart : ∀ tk0 ∈ pySplit t,
      (tk0 ≠ [] ∧ tk0.all (fun c => !pyIsSpace c) = true) ∧
      ((∀ e ∈ ([] : List (String × String)), matchCI e.1.data tk0 = false) ∨ neverTok tk0) := by
    intro tk0 htk0
    exact ⟨pySplit_tokens t.length t le_rfl tk0 htk0, Or.inl (by simp)⟩
  have := foldTokens_good ABBREVIATIONS [] rfl (pySplit t) hstart tk htk
  refine ⟨this.1, ?_⟩
  rcases this.2 with h1 | h2
  · intro e he
    exact h1 e (by simpa using he)
  · exact h2

/-- A substitution pass fixes a single-space join of fields none of which
the literal matches. -/
theorem subGo_fix_never (ab ex : List Char) (hpat : patNoWs ab = true) :
    ∀ toks : List (List Char),
    (∀ tk ∈ toks, (tk ≠ [] ∧ tk.all (fun c => !pyIsSpace c) = true) ∧
      matchCI ab tk = false) →
    ∀ b : Bool, subGo ab ex 0 b (joinSp toks) = joinSp toks := by
  intro toks
  induction toks with
  | nil => intro _ b; rfl
  | cons tk tks ih =>
    intro h b
    obtain ⟨⟨hne, hall⟩, hnm⟩ := h tk (by simp)
    obtain ⟨a, as, rfl⟩ : ∃ a as, tk = a :: as := by
      cases tk with
      | nil => exact absurd rfl hne
      | cons a as => exact ⟨a, as, rfl⟩
    simp only [List.all_cons, Bool.and_eq_true, Bool.not_eq_true'] at hall
    cases tks with
    | nil =>
      show subGo ab ex 0 b (a :: as) = a :: as
      rw [subGo, if_neg (by simp [hnm]), hall.1]
      conv_lhs => rw [show as = as ++ ([] : List Char) from by simp]
      rw [subGo_copy_false ab ex as [] (by simpa using hall.2)]
      simp [subGo]
    | cons tk2 tks' =>
      rw [joinSp_cons_cons]
      have hmext : matchCI ab (a :: (as ++ ' ' :: joinSp (tk2 :: tks'))) = false := by
        rw [show (a : Char) :: (as ++ ' ' :: joinSp (tk2 :: tks')) =
            (a :: as) ++ ' ' :: joinSp (tk2 :: tks') from rfl,
            matchCI_token (a :: as) ab (' ' :: joinSp (tk2 :: tks')) hpat
              (by simp [hall.1, hall.2]) (show pyIsSpace ' ' = true from by decide)]
        exact hnm
      rw [List.cons_append, subGo, if_neg (by simp [hmext]), hall.1,
          subGo_copy_false ab ex as (' ' :: joinSp (tk2 :: tks')) (by simpa using hall.2),
          show subGo ab ex 0 false (' ' :: joinSp (tk2 :: tks')) =
            ' ' :: subGo ab ex 0 (pyIsSpace ' ') (joinSp (tk2 :: tks')) from by
              rw [subGo, if_neg (by simp)],
          show pyIsSpace ' ' = true from by decide,
          ih (fun x hx => h x (List.mem_cons_of_mem _ hx)) true]

theorem applyAbbrevs_fix (y : List Char)
    (h : ∀ e ∈ ABBREVIATIONS, subAbbr e.1.data e.2.data y = y) :
    applyAbbrevs y = y := by
  have haux : ∀ es : List (String × String),
      (∀ e ∈ es, subAbbr e.1.data e.2.data y = y) →
      es.foldl (fun acc e => subAbbr e.1.data e.2.data acc) y = y := by
    intro es
    induction es with
    | nil => intro _; rfl
    | cons e es' ih =>
      intro hes
      rw [List.foldl_cons, hes e (by simp), ih (fun x hx => hes x (List.mem_cons_of_mem _ hx))]
  exact haux ABBREVIATIONS h

theorem vnl_eq_collapse (t : List Char) (ht : t ≠ []) (h : t.all keepChar = true) :
    vietnameseNormalizeList t true = collapseWs (applyAbbrevs t) := by
  rw [vietnameseNormalizeList, if_neg ht]
  rw [show (if true then applyAbbrevs (nfc t) else nfc t) = applyAbbrevs t from rfl]
  rw [filterStep_id _ (collapseWs_keep _ (applyAbbrevs_keep t h)), pyStrip_collapseWs]

theorem vnl_idem (t : List Char) (h : t.all keepChar = true) :
    vietnameseNormalizeList (vietnameseNormalizeList t true) true =
      vietnameseNormalizeList t true := by
  by_cases ht : t = []
  · subst ht; rfl
  · rw [vnl_eq_collapse t ht h]
    by_cases hy : collapseWs (applyAbbrevs t) = []
    · rw [hy]; rfl
    · have hyk : (collapseWs (applyAbbrevs t)).all keepChar = true :=
        collapseWs_keep _ (applyAbbrevs_keep t h)
      rw [vnl_eq_collapse _ hy hyk]
      have htoks := applyAbbrevs_tokens t
      have habb : applyAbbrevs (collapseWs (applyAbbrevs t)) = collapseWs (applyAbbrevs t) := by
        refine applyAbbrevs_fix _ ?_
        intro e he
        have hfacts : ABBREVIATIONS.all (fun e => patNoWs e.1.data) = true := by decide
        rw [List.all_eq_true] at hfacts
        rw [show collapseWs (applyAbbrevs t) = joinSp (pySplit (applyAbbrevs t)) from rfl]
        exact subGo_fix_never e.1.data e.2.data (hfacts e he) _
          (fun tk htk => ⟨(htoks tk htk).1, (htoks tk htk).2 e he⟩) true
      rw [habb, collapseWs_idem]

/-- C2 counterexample: `vietnamese_normalize` is not idempotent.  On
"a ☃ b" the snowman (kept through the whitespace collapse, then dropped by
the character filter) leaves a double space behind, which a second pass
collapses. -/
theorem C2_normalize_not_idempotent :
    vietnamese_normalize (vietnamese_normalize "a ☃ b") ≠ vietnamese_normalize "a ☃ b" := by
  decide

/-- C2, amended: `vietnamese_normalize` (with the default
`expand_abbreviations = true`) is idempotent on every input all of whose
characters are retained by the character filter.  (In general a dropped
character can leave a double space behind or expose a new token boundary,
and idempotence fails — see the counterexample.) -/
theorem C2_normalize_idempotent_on_kept (s : String) (h : s.data.all keepChar = true) :
    vietnamese_normalize (vietnamese_normalize s) = vietnamese_normalize s := by
  show String.mk (vietnameseNormalizeList (String.mk (vietnameseNormalizeList s.data true)).data true) = _
  rw [show (String.mk (vietnameseNormalizeList s.data true)).data =
      vietnameseNormalizeList s.data true from rfl, vnl_idem s.data h]
  rfl

/-- Witness for C2's amended claim at a concrete retained-only input that
exercises abbreviation expansion. -/
theorem C2_normalize_idempotent_on_kept_witness :
    ("Đi tp. HCM".data.all keepChar = true) ∧
    vietnamese_normalize (vietnamese_normalize "Đi tp. HCM") = vietnamese_normalize "Đi tp. HCM" :=
  ⟨by decide, C2_normalize_idempotent_on_kept "Đi tp. HCM" (by decide)⟩

end Chatterbox
